/-
Verification of the SFC proxy packet engine (proxy.py).

Frames are byte strings, modelled as List Nat with every element below 256.
Each Python header record class (built by the MetaStruct metaclass from a
struct format string) becomes a Lean structure with a parse function
(struct.unpack: it succeeds exactly when the input has the format's length,
all multi-byte integers big-endian, address fields kept as opaque slices)
and a pack function (struct.pack).  struct.unpack on a buffer of the wrong
length raises struct.error; parse returns none there, and pipeline code that
would let the exception escape returns Except.error.
-/
import Mathlib

namespace SfcProxy

/-- A list of naturals is a faithful byte string when every entry is below 256. -/
def isBytes (l : List Nat) : Prop := ∀ b ∈ l, b < 256

instance (l : List Nat) : Decidable (isBytes l) :=
  inferInstanceAs (Decidable (∀ b ∈ l, b < 256))

/-- Big-endian two-byte encoding of a 16-bit integer (struct format H). -/
def be2 (n : Nat) : List Nat := [n / 256 % 256, n % 256]

/-- Big-endian four-byte encoding of a 32-bit integer (struct format L). -/
def be4 (n : Nat) : List Nat := [n / 16777216 % 256, n / 65536 % 256, n / 256 % 256, n % 256]

/-- Ethernet header record, Python class StructEthHeader, format !6s6sH:
six-byte destination MAC, six-byte source MAC, 16-bit ethertype. -/
structure StructEthHeader where
  eth_dst : List Nat
  eth_src : List Nat
  eth_type : Nat
deriving DecidableEq

/-- struct.unpack of format !6s6sH: requires exactly 14 bytes. -/
def StructEthHeader.parse? : List Nat → Option StructEthHeader
  | [d0, d1, d2, d3, d4, d5, s0, s1, s2, s3, s4, s5, t0, t1] =>
      some { eth_dst := [d0, d1, d2, d3, d4, d5],
             eth_src := [s0, s1, s2, s3, s4, s5],
             eth_type := 256 * t0 + t1 }
  | _ => none

/-- struct.pack of format !6s6sH. -/
def StructEthHeader.pack (x : StructEthHeader) : List Nat :=
  x.eth_dst ++ x.eth_src ++ be2 x.eth_type

/-- Well-formed Ethernet record: address slices of declared width, ethertype in range. -/
def StructEthHeader.Wf (x : StructEthHeader) : Prop :=
  x.eth_dst.length = 6 ∧ x.eth_src.length = 6 ∧ x.eth_type < 65536

instance (x : StructEthHeader) : Decidable x.Wf :=
  inferInstanceAs (Decidable (_ ∧ _ ∧ _))

/-- NSH MD-Type 1 header record, Python class StructNshHeader, format !HBBLLLLL. -/
structure StructNshHeader where
  nsh_flags_length : Nat
  nsh_md_type : Nat
  nsh_np : Nat
  nsh_sph : Nat
  nsh_ctx1 : Nat
  nsh_ctx2 : Nat
  nsh_ctx3 : Nat
  nsh_ctx4 : Nat
deriving DecidableEq

/-- struct.unpack of format !HBBLLLLL: requires exactly 24 bytes. -/
def StructNshHeader.parse? : List Nat → Option StructNshHeader
  | [f0, f1, m0, p0, s0, s1, s2, s3,
     c0, c1, c2, c3, c4, c5, c6, c7, c8, c9, c10, c11, c12, c13, c14, c15] =>
      some { nsh_flags_length := 256 * f0 + f1,
             nsh_md_type := m0,
             nsh_np := p0,
             nsh_sph := 256 * (256 * (256 * s0 + s1) + s2) + s3,
             nsh_ctx1 := 256 * (256 * (256 * c0 + c1) + c2) + c3,
             nsh_ctx2 := 256 * (256 * (256 * c4 + c5) + c6) + c7,
             nsh_ctx3 := 256 * (256 * (256 * c8 + c9) + c10) + c11,
             nsh_ctx4 := 256 * (256 * (256 * c12 + c13) + c14) + c15 }
  | _ => none

/-- struct.pack of format !HBBLLLLL. -/
def StructNshHeader.pack (x : StructNshHeader) : List Nat :=
  be2 x.nsh_flags_length ++ [x.nsh_md_type % 256, x.nsh_np % 256] ++
    be4 x.nsh_sph ++ be4 x.nsh_ctx1 ++ be4 x.nsh_ctx2 ++ be4 x.nsh_ctx3 ++ be4 x.nsh_ctx4

/-- Well-formed NSH record: each integer field within its declared range. -/
def StructNshHeader.Wf (x : StructNshHeader) : Prop :=
  x.nsh_flags_length < 65536 ∧ x.nsh_md_type < 256 ∧ x.nsh_np < 256 ∧
    x.nsh_sph < 4294967296 ∧ x.nsh_ctx1 < 4294967296 ∧ x.nsh_ctx2 < 4294967296 ∧
    x.nsh_ctx3 < 4294967296 ∧ x.nsh_ctx4 < 4294967296

instance (x : StructNshHeader) : Decidable x.Wf :=
  inferInstanceAs (Decidable (_ ∧ _ ∧ _ ∧ _ ∧ _ ∧ _ ∧ _ ∧ _))

/-- Python method get_nsh_spi: (nsh_sph AND 0xFFFFFF00) shifted right by 8,
which on naturals is division by 256 truncated to 24 bits. -/
def StructNshHeader.get_nsh_spi (x : StructNshHeader) : Nat := x.nsh_sph / 256 % 16777216

/-- Python method get_nsh_si: nsh_sph AND 0x000000FF. -/
def StructNshHeader.get_nsh_si (x : StructNshHeader) : Nat := x.nsh_sph % 256

/-- UDP header record, Python class StructUdpHeader, format !HHHH. -/
structure StructUdpHeader where
  udp_src_port : Nat
  udp_dst_port : Nat
  udp_data_length : Nat
  udp_checksum : Nat
deriving DecidableEq

/-- struct.unpack of format !HHHH: requires exactly 8 bytes. -/
def StructUdpHeader.parse? : List Nat → Option StructUdpHeader
  | [a0, a1, b0, b1, c0, c1, d0, d1] =>
      some { udp_src_port := 256 * a0 + a1, udp_dst_port := 256 * b0 + b1,
             udp_data_length := 256 * c0 + c1, udp_checksum := 256 * d0 + d1 }
  | _ => none

/-- struct.pack of format !HHHH. -/
def StructUdpHeader.pack (x : StructUdpHeader) : List Nat :=
  be2 x.udp_src_port ++ be2 x.udp_dst_port ++ be2 x.udp_data_length ++ be2 x.udp_checksum

/-- Well-formed UDP record: all four fields 16-bit. -/
def StructUdpHeader.Wf (x : StructUdpHeader) : Prop :=
  x.udp_src_port < 65536 ∧ x.udp_dst_port < 65536 ∧
    x.udp_data_length < 65536 ∧ x.udp_checksum < 65536

instance (x : StructUdpHeader) : Decidable x.Wf :=
  inferInstanceAs (Decidable (_ ∧ _ ∧ _ ∧ _))

/-- IPv4 header record, Python class StructIpHeader, format !HHHHBBH4s4s. -/
structure StructIpHeader where
  ip_ver_ihl_type : Nat
  ip_total_length : Nat
  ip_id : Nat
  ip_flags_frag_offset : Nat
  ip_time2live : Nat
  ip_protocol : Nat
  ip_hdr_checksum : Nat
  ip_src : List Nat
  ip_dst : List Nat
deriving DecidableEq

/-- struct.unpack of format !HHHHBBH4s4s: requires exactly 20 bytes. -/
def StructIpHeader.parse? : List Nat → Option StructIpHeader
  | [a0, a1, b0, b1, c0, c1, d0, d1, e0, e1, f0, f1, s0, s1, s2, s3, t0, t1, t2, t3] =>
      some { ip_ver_ihl_type := 256 * a0 + a1,
             ip_total_length := 256 * b0 + b1,
             ip_id := 256 * c0 + c1,
             ip_flags_frag_offset := 256 * d0 + d1,
             ip_time2live := e0,
             ip_protocol := e1,
             ip_hdr_checksum := 256 * f0 + f1,
             ip_src := [s0, s1, s2, s3],
             ip_dst := [t0, t1, t2, t3] }
  | _ => none

/-- struct.pack of format !HHHHBBH4s4s. -/
def StructIpHeader.pack (x : StructIpHeader) : List Nat :=
  be2 x.ip_ver_ihl_type ++ be2 x.ip_total_length ++ be2 x.ip_id ++
    be2 x.ip_flags_frag_offset ++ [x.ip_time2live % 256, x.ip_protocol % 256] ++
    be2 x.ip_hdr_checksum ++ x.ip_src ++ x.ip_dst

/-- Well-formed IPv4 record: integer fields in range, four-byte address slices. -/
def StructIpHeader.Wf (x : StructIpHeader) : Prop :=
  x.ip_ver_ihl_type < 65536 ∧ x.ip_total_length < 65536 ∧ x.ip_id < 65536 ∧
    x.ip_flags_frag_offset < 65536 ∧ x.ip_time2live < 256 ∧ x.ip_protocol < 256 ∧
    x.ip_hdr_checksum < 65536 ∧ x.ip_src.length = 4 ∧ x.ip_dst.length = 4

instance (x : StructIpHeader) : Decidable x.Wf :=
  inferInstanceAs (Decidable (_ ∧ _ ∧ _ ∧ _ ∧ _ ∧ _ ∧ _ ∧ _ ∧ _))

/-- TCP base header record, Python class StructTcpHeaderWithoutOptions, format !HHLLBBHHH. -/
structure StructTcpHeaderWithoutOptions where
  tcp_src_port : Nat
  tcp_dst_port : Nat
  tcp_seq_number : Nat
  tcp_ack : Nat
  tcp_byte_data_offset : Nat
  tcp_flags : Nat
  tcp_win_size : Nat
  tcp_checksum : Nat
  tcp_urgent_ptr : Nat
deriving DecidableEq

/-- struct.unpack of format !HHLLBBHHH: requires exactly 20 bytes. -/
def StructTcpHeaderWithoutOptions.parse? : List Nat → Option StructTcpHeaderWithoutOptions
  | [a0, a1, b0, b1, q0, q1, q2, q3, r0, r1, r2, r3, e0, e1, w0, w1, k0, k1, u0, u1] =>
      some { tcp_src_port := 256 * a0 + a1,
             tcp_dst_port := 256 * b0 + b1,
             tcp_seq_number := 256 * (256 * (256 * q0 + q1) + q2) + q3,
             tcp_ack := 256 * (256 * (256 * r0 + r1) + r2) + r3,
             tcp_byte_data_offset := e0,
             tcp_flags := e1,
             tcp_win_size := 256 * w0 + w1,
             tcp_checksum := 256 * k0 + k1,
             tcp_urgent_ptr := 256 * u0 + u1 }
  | _ => none

/-- struct.pack of format !HHLLBBHHH. -/
def StructTcpHeaderWithoutOptions.pack (x : StructTcpHeaderWithoutOptions) : List Nat :=
  be2 x.tcp_src_port ++ be2 x.tcp_dst_port ++ be4 x.tcp_seq_number ++ be4 x.tcp_ack ++
    [x.tcp_byte_data_offset % 256, x.tcp_flags % 256] ++
    be2 x.tcp_win_size ++ be2 x.tcp_checksum ++ be2 x.tcp_urgent_ptr

/-- Well-formed TCP base-header record: integer fields in range. -/
def StructTcpHeaderWithoutOptions.Wf (x : StructTcpHeaderWithoutOptions) : Prop :=
  x.tcp_src_port < 65536 ∧ x.tcp_dst_port < 65536 ∧ x.tcp_seq_number < 4294967296 ∧
    x.tcp_ack < 4294967296 ∧ x.tcp_byte_data_offset < 256 ∧ x.tcp_flags < 256 ∧
    x.tcp_win_size < 65536 ∧ x.tcp_checksum < 65536 ∧ x.tcp_urgent_ptr < 65536

instance (x : StructTcpHeaderWithoutOptions) : Decidable x.Wf :=
  inferInstanceAs (Decidable (_ ∧ _ ∧ _ ∧ _ ∧ _ ∧ _ ∧ _ ∧ _ ∧ _))

/-- RFC 793 96-bit pseudo header record, Python class StructPseudoHeader, format !4s4sBBH. -/
structure StructPseudoHeader where
  src : List Nat
  dst : List Nat
  zero : Nat
  protocol : Nat
  tcp_length : Nat
deriving DecidableEq

/-- struct.unpack of format !4s4sBBH: requires exactly 12 bytes. -/
def StructPseudoHeader.parse? : List Nat → Option StructPseudoHeader
  | [s0, s1, s2, s3, t0, t1, t2, t3, z0, p0, l0, l1] =>
      some { src := [s0, s1, s2, s3], dst := [t0, t1, t2, t3],
             zero := z0, protocol := p0, tcp_length := 256 * l0 + l1 }
  | _ => none

/-- struct.pack of format !4s4sBBH. -/
def StructPseudoHeader.pack (x : StructPseudoHeader) : List Nat :=
  x.src ++ x.dst ++ [x.zero % 256, x.protocol % 256] ++ be2 x.tcp_length

/-- Well-formed pseudo-header record. -/
def StructPseudoHeader.Wf (x : StructPseudoHeader) : Prop :=
  x.src.length = 4 ∧ x.dst.length = 4 ∧ x.zero < 256 ∧ x.protocol < 256 ∧
    x.tcp_length < 65536

instance (x : StructPseudoHeader) : Decidable x.Wf :=
  inferInstanceAs (Decidable (_ ∧ _ ∧ _ ∧ _ ∧ _))

/-- VXLAN-GPE header record, Python class StructVxLanGPEHeader, format !BHB3sB. -/
structure StructVxLanGPEHeader where
  vxlan_flags : Nat
  vxlan_reserved1 : Nat
  next_proto : Nat
  vni : List Nat
  vxlan_reserved2 : Nat
deriving DecidableEq

/-- struct.unpack of format !BHB3sB: requires exactly 8 bytes. -/
def StructVxLanGPEHeader.parse? : List Nat → Option StructVxLanGPEHeader
  | [f0, r0, r1, p0, v0, v1, v2, w0] =>
      some { vxlan_flags := f0, vxlan_reserved1 := 256 * r0 + r1,
             next_proto := p0, vni := [v0, v1, v2], vxlan_reserved2 := w0 }
  | _ => none

/-- struct.pack of format !BHB3sB. -/
def StructVxLanGPEHeader.pack (x : StructVxLanGPEHeader) : List Nat :=
  [x.vxlan_flags % 256] ++ be2 x.vxlan_reserved1 ++ [x.next_proto % 256] ++
    x.vni ++ [x.vxlan_reserved2 % 256]

/-- Well-formed VXLAN-GPE record: byte fields in range, three-byte VNI slice. -/
def StructVxLanGPEHeader.Wf (x : StructVxLanGPEHeader) : Prop :=
  x.vxlan_flags < 256 ∧ x.vxlan_reserved1 < 65536 ∧ x.next_proto < 256 ∧
    x.vni.length = 3 ∧ x.vxlan_reserved2 < 256

instance (x : StructVxLanGPEHeader) : Decidable x.Wf :=
  inferInstanceAs (Decidable (_ ∧ _ ∧ _ ∧ _ ∧ _))

/-! Frame-level parse helpers (proxy.py top-level functions).  Python slicing
clamps out-of-range indices, exactly like List.take and List.drop. -/

/-- Python parse_ethernet: header is the first 14 bytes, payload the rest. -/
def parse_ethernet (frame : List Nat) : List Nat × List Nat :=
  (frame.take 14, frame.drop 14)

/-- Python parse_nsh: 8-byte base header plus 16 bytes of context headers. -/
def parse_nsh (packet : List Nat) : List Nat × List Nat :=
  (packet.take 24, packet.drop 24)

/-- Python parse_udp: 8-byte header. -/
def parse_udp (packet : List Nat) : List Nat × List Nat :=
  (packet.take 8, packet.drop 8)

/-- Python parse_vxlan_gpe: 8-byte header. -/
def parse_vxlan_gpe (packet : List Nat) : List Nat × List Nat :=
  (packet.take 8, packet.drop 8)

/-- Python parse_ip: header length is (packet[0] AND 0x0F) * 4.  Indexing an
empty buffer raises IndexError, modelled as Except.error. -/
def parse_ip (packet : List Nat) : Except Unit (List Nat × List Nat) :=
  match packet with
  | [] => Except.error ()
  | b0 :: _ =>
      let header_length_in_bytes := (b0 % 16) * 4
      Except.ok (packet.take header_length_in_bytes, packet.drop header_length_in_bytes)

/-- Python parse_tcp: unpacks the first 20 bytes (struct.error when shorter),
reads the data offset from the upper nibble of byte 12, and splits the buffer
into base header, options and payload. -/
def parse_tcp (packet : List Nat) : Except Unit (List Nat × List Nat × List Nat) :=
  match StructTcpHeaderWithoutOptions.parse? (packet.take 20) with
  | none => Except.error ()
  | some nt =>
      let data_offset := nt.tcp_byte_data_offset / 16
      let header_length := data_offset * 4
      Except.ok (packet.take 20, (packet.drop 20).take (header_length - 20),
        packet.drop header_length)

/-- Python make_ethernet_header_swap: reparse the 14-byte header and exchange
source and destination MAC. -/
def make_ethernet_header_swap (header : List Nat) : Option (List Nat) :=
  (StructEthHeader.parse? header).map fun nt =>
    StructEthHeader.pack { nt with eth_dst := nt.eth_src, eth_src := nt.eth_dst }

/-- Python make_ip_header_swap: reparse the 20-byte header and exchange source
and destination address, without recomputing the checksum. -/
def make_ip_header_swap (header : List Nat) : Option (List Nat) :=
  (StructIpHeader.parse? header).map fun nt =>
    StructIpHeader.pack { nt with ip_src := nt.ip_dst, ip_dst := nt.ip_src }

/-- Python make_nsh_decr_si: reparse the 24-byte NSH header and replace its
service path header by make_nsh_sph_with_si(get_nsh_si() - 1), that is, the
same SPI with the service index decremented.  Python subtraction can go
negative; struct.pack then raises struct.error, modelled by none. -/
def make_nsh_decr_si (nsh_header : List Nat) : Option (List Nat) :=
  match StructNshHeader.parse? nsh_header with
  | none => none
  | some nt =>
      let newSph : Int := (nt.get_nsh_spi : Int) * 256 + ((nt.get_nsh_si : Int) - 1)
      if 0 ≤ newSph then
        some (StructNshHeader.pack { nt with nsh_sph := newSph.toNat })
      else none

/-- Sum of the 16-bit words of a byte string read in little-endian order, as
Python array.array with type code H does on a little-endian machine. -/
def sumLEWords : List Nat → Nat
  | b0 :: b1 :: rest => (b0 + 256 * b1) + sumLEWords rest
  | [b0] => b0
  | [] => 0

/-- Python calculate_checksum: pad to even length, sum the buffer as native
(little-endian) 16-bit words, fold the carries twice, complement, and byte-swap
into network order.  Python integer shifts are division; the bitwise
complement and the final AND 0xFFFF of the byte-swapped value reduce on
naturals to the two 255 - x byte expressions below. -/
def calculate_checksum (pkt : List Nat) : Nat :=
  let pkt := if pkt.length % 2 = 1 then pkt ++ [0] else pkt
  let s0 := sumLEWords pkt
  let s1 := s0 / 65536 + s0 % 65536
  let s2 := s1 + s1 / 65536
  (255 - s2 / 256 % 256) + 256 * (255 - s2 % 256)

/-- Python calculate_ip_checksum: zero the checksum field (bytes 10 and 11)
and run calculate_checksum. -/
def calculate_ip_checksum (pkt : List Nat) : Nat :=
  calculate_checksum (pkt.take 10 ++ [0, 0] ++ pkt.drop 12)

/-- Python make_ip_header: reparse the 20-byte header, overwrite the total
length, then overwrite the checksum with calculate_ip_checksum of the packed
intermediate header. -/
def make_ip_header (header : List Nat) (new_ip_total_length : Nat) : Option (List Nat) :=
  (StructIpHeader.parse? header).map fun nt =>
    let nt1 := { nt with ip_total_length := new_ip_total_length }
    let nt2 := { nt1 with ip_hdr_checksum := calculate_ip_checksum nt1.pack }
    nt2.pack

/-! The session tables and the three packet pipelines. -/

/-- The three raw sockets the proxy binds: the encapsulated-side interface and
the two unencapsulated-side interfaces. -/
inductive Iface where
  | encap
  | unencapIn
  | unencapOut
deriving DecidableEq

/-- One fully drained send: the interface written to and the bytes written. -/
abbrev Emission := Iface × List Nat

/-- Inner 7-tuple session key, exactly the tuple built at proxy.py lines
711 and 838: (eth_dst, eth_src, eth_type, ip_dst, ip_src, tcp_dst_port,
tcp_src_port). -/
structure FlowKey where
  eth_dst : List Nat
  eth_src : List Nat
  eth_type : Nat
  ip_dst : List Nat
  ip_src : List Nat
  tcp_dst_port : Nat
  tcp_src_port : Nat
deriving DecidableEq

/-- The swapped key of proxy.py lines 712 and 961: MAC addresses, IP addresses
and ports exchanged, ethertype kept. -/
def FlowKey.swap (k : FlowKey) : FlowKey :=
  { eth_dst := k.eth_src, eth_src := k.eth_dst, eth_type := k.eth_type,
    ip_dst := k.ip_src, ip_src := k.ip_dst,
    tcp_dst_port := k.tcp_src_port, tcp_src_port := k.tcp_dst_port }

/-- Build the 7-tuple key from parsed Ethernet, IPv4 and TCP records. -/
def keyOf (e : StructEthHeader) (i : StructIpHeader) (t : StructTcpHeaderWithoutOptions) :
    FlowKey :=
  { eth_dst := e.eth_dst, eth_src := e.eth_src, eth_type := e.eth_type,
    ip_dst := i.ip_dst, ip_src := i.ip_src,
    tcp_dst_port := t.tcp_dst_port, tcp_src_port := t.tcp_src_port }

/-- The six preserved outer-header slices stored per session (the value of the
sessions and sessions_reply_info dictionaries). -/
structure Bundle where
  outer_eth : List Nat
  outer_ip : List Nat
  udp : List Nat
  vxlan : List Nat
  nsh_eth : List Nat
  nsh : List Nat
deriving DecidableEq

/-- The two module-global session dictionaries of proxy.py: sessions (forward
table) and sessions_reply_info (reply table). -/
structure ProxyState where
  sessions : FlowKey → Option Bundle
  sessions_reply_info : FlowKey → Option Bundle

/-- Python dictionary assignment d[k] = b. -/
def update (m : FlowKey → Option Bundle) (k : FlowKey) (b : Bundle) :
    FlowKey → Option Bundle :=
  fun k2 => if k2 = k then some b else m k2

/-- Python parse_frame_and_deencapsulate, the decap pipeline run on frames
from the encap interface.  The returned triple is the new global state, the
drained sends performed (the caller passes the unencap-out socket; replies go
to the unencap-in socket), and the reset_connection flag of the 14-tuple the
Python function returns.  Any struct.error or IndexError escaping the
function is Except.error. -/
def parse_frame_and_deencapsulate (st : ProxyState) (frame : List Nat) :
    Except Unit (ProxyState × List Emission × Bool) :=
  let eo := parse_ethernet frame
  match StructEthHeader.parse? eo.1 with
  | none => Except.error ()
  | some outer_eth_nt =>
    if outer_eth_nt.eth_type = 0x0800 then
      match parse_ip eo.2 with
      | Except.error _ => Except.error ()
      | Except.ok ipp =>
        match StructIpHeader.parse? ipp.1 with
        | none => Except.error ()
        | some ip_nt =>
          if ip_nt.ip_protocol = 17 then
            -- reset_connection is set to True here in the source
            let up := parse_udp ipp.2
            match StructUdpHeader.parse? up.1 with
            | none => Except.error ()
            | some udp_nt =>
              if udp_nt.udp_dst_port = 4790 then
                let vp := parse_vxlan_gpe up.2
                match StructVxLanGPEHeader.parse? vp.1 with
                | none => Except.error ()
                | some _vxlan_nt =>
                  let en := parse_ethernet vp.2
                  match StructEthHeader.parse? en.1 with
                  | none => Except.error ()
                  | some _eth_nsh_nt =>
                    let np := parse_nsh en.2
                    match StructNshHeader.parse? np.1 with
                    | none => Except.error ()
                    | some _nsh_nt =>
                      let ie := parse_ethernet np.2
                      match StructEthHeader.parse? ie.1 with
                      | none => Except.error ()
                      | some inner_eth_nt =>
                        match parse_ip ie.2 with
                        | Except.error _ => Except.error ()
                        | Except.ok iipp =>
                          match StructIpHeader.parse? iipp.1 with
                          | none => Except.error ()
                          | some inner_ip_nt =>
                            match parse_tcp iipp.2 with
                            | Except.error _ => Except.error ()
                            | Except.ok t3 =>
                              match StructTcpHeaderWithoutOptions.parse? t3.1 with
                              | none => Except.error ()
                              | some inner_tcp_nt =>
                                let key := keyOf inner_eth_nt inner_ip_nt inner_tcp_nt
                                let swapped_key := FlowKey.swap key
                                let bundle : Bundle :=
                                  { outer_eth := eo.1, outer_ip := ipp.1, udp := up.1,
                                    vxlan := vp.1, nsh_eth := en.1, nsh := np.1 }
                                if (st.sessions swapped_key).isSome then
                                  -- reply: record into the reply table, send the
                                  -- inner frame (nsh_payload) on unencap-in
                                  Except.ok
                                    ({ st with sessions_reply_info := update st.sessions_reply_info swapped_key bundle },
                                     [(Iface.unencapIn, np.2)], true)
                                else
                                  -- forward: record into sessions, send the inner
                                  -- frame on the socket passed in (unencap-out)
                                  Except.ok
                                    ({ st with sessions := update st.sessions key bundle },
                                     [(Iface.unencapOut, np.2)], true)
              else Except.ok (st, [], true)
          else Except.ok (st, [], false)
    else Except.ok (st, [], false)

/-- Python parse_frame_and_encapsulate, the encap pipeline run on bare frames
from the unencap-in interface.  On a session hit it rebuilds the outer stack
(outer Ethernet swapped, outer IPv4 swapped, UDP, VXLAN and NSH-carrying
Ethernet verbatim, NSH with decremented SI) followed by the whole input frame,
and sends it on the encap socket. -/
def parse_frame_and_encapsulate (st : ProxyState) (frame : List Nat) :
    Except Unit (ProxyState × List Emission × Bool) :=
  let eo := parse_ethernet frame
  match StructEthHeader.parse? eo.1 with
  | none => Except.error ()
  | some outer_eth_nt =>
    if outer_eth_nt.eth_type = 0x0800 then
      match parse_ip eo.2 with
      | Except.error _ => Except.error ()
      | Except.ok ipp =>
        match StructIpHeader.parse? ipp.1 with
        | none => Except.error ()
        | some ip_nt =>
          if ip_nt.ip_protocol = 6 then
            match parse_tcp ipp.2 with
            | Except.error _ => Except.error ()
            | Except.ok t3 =>
              match StructTcpHeaderWithoutOptions.parse? t3.1 with
              | none => Except.error ()
              | some tcp_nt =>
                let key := keyOf outer_eth_nt ip_nt tcp_nt
                match st.sessions key with
                | none => Except.ok (st, [], false)
                | some bundle =>
                  match make_ethernet_header_swap bundle.outer_eth with
                  | none => Except.error ()
                  | some new_outer_eth_header_swapped =>
                    match make_ip_header_swap bundle.outer_ip with
                    | none => Except.error ()
                    | some new_ip_header_swapped =>
                      match make_nsh_decr_si bundle.nsh with
                      | none => Except.error ()
                      | some new_nsh_header_decremented =>
                        Except.ok (st,
                          [(Iface.encap,
                            new_outer_eth_header_swapped ++ new_ip_header_swapped ++
                              bundle.udp ++ bundle.vxlan ++ bundle.nsh_eth ++
                              new_nsh_header_decremented ++ frame)], false)
          else Except.ok (st, [], false)
    else Except.ok (st, [], false)

/-- Python parse_frame_and_encapsulate_test, the reverse-encap pipeline run on
bare reply frames from the unencap-out interface.  It looks up the swapped
key; on a hit it reads the forward bundle and then the reply bundle, where a
missing reply entry raises an uncaught KeyError (Except.error).  The frame is
rebuilt from the reply bundle with outer Ethernet, outer IPv4 and NSH-carrying
Ethernet swapped and the reply NSH decremented, and sent on the encap socket. -/
def parse_frame_and_encapsulate_test (st : ProxyState) (frame : List Nat) :
    Except Unit (ProxyState × List Emission × Bool) :=
  let eo := parse_ethernet frame
  match StructEthHeader.parse? eo.1 with
  | none => Except.error ()
  | some outer_eth_nt =>
    if outer_eth_nt.eth_type = 0x0800 then
      match parse_ip eo.2 with
      | Except.error _ => Except.error ()
      | Except.ok ipp =>
        match StructIpHeader.parse? ipp.1 with
        | none => Except.error ()
        | some ip_nt =>
          if ip_nt.ip_protocol = 6 then
            match parse_tcp ipp.2 with
            | Except.error _ => Except.error ()
            | Except.ok t3 =>
              match StructTcpHeaderWithoutOptions.parse? t3.1 with
              | none => Except.error ()
              | some tcp_nt =>
                let swapped_key := FlowKey.swap (keyOf outer_eth_nt ip_nt tcp_nt)
                match st.sessions swapped_key with
                | none => Except.ok (st, [], false)
                | some _fwd_bundle =>
                  match st.sessions_reply_info swapped_key with
                  | none => Except.error ()   -- KeyError, uncaught: the worker dies
                  | some reply =>
                    match make_nsh_decr_si reply.nsh with
                    | none => Except.error ()
                    | some new_nsh_header_decremented =>
                      match make_ethernet_header_swap reply.outer_eth with
                      | none => Except.error ()
                      | some new_reply_outer_eth_header_swapped =>
                        match make_ip_header_swap reply.outer_ip with
                        | none => Except.error ()
                        | some new_reply_ip_header_swapped =>
                          match make_ethernet_header_swap reply.nsh_eth with
                          | none => Except.error ()
                          | some new_reply_eth_nsh_header_swapped =>
                            Except.ok (st,
                              [(Iface.encap,
                                new_reply_outer_eth_header_swapped ++
                                  new_reply_ip_header_swapped ++ reply.udp ++
                                  reply.vxlan ++ new_reply_eth_nsh_header_swapped ++
                                  new_nsh_header_decremented ++ frame)], false)
          else Except.ok (st, [], false)
    else Except.ok (st, [], false)

/-! The drained-send loop (while new_pkt: sent = sckt.send(new_pkt);
new_pkt = new_pkt[sent:]) against a schedule of send return values. -/

/-- Run the drained-send loop with the given schedule of send results.  Each
iteration consumes take s of the remaining bytes; the loop stops when nothing
is left.  none means the schedule ended while bytes remained. -/
def sendAll : List Nat → List Nat → Option (List (List Nat))
  | [], _ => some []
  | _ :: _, [] => none
  | pkt, s :: rest => (sendAll (pkt.drop s) rest).map fun chunks => pkt.take s :: chunks

/-- A schedule is valid for a packet when every send consumes at least one byte
and at most the bytes remaining, until the packet is drained. -/
def validSends : List Nat → List Nat → Bool
  | [], _ => true
  | _ :: _, [] => false
  | pkt, s :: rest => decide (1 ≤ s) && decide (s ≤ pkt.length) && validSends (pkt.drop s) rest

/-! Generic list destructuring helpers. -/

theorem len_succ {l : List Nat} {n : Nat} (h : l.length = n + 1) :
    ∃ a t, l = a :: t ∧ t.length = n := by
  cases l with
  | nil => simp at h
  | cons a t => exact ⟨a, t, rfl, by simpa using h⟩

theorem exists_len3 {l : List Nat} (h : l.length = 3) :
    ∃ b0 b1 b2, l = [b0, b1, b2] := by
  obtain ⟨b0, l, rfl, h1⟩ := len_succ (n := 2) h
  obtain ⟨b1, l, rfl, h2⟩ := len_succ (n := 1) h1
  obtain ⟨b2, l, rfl, h3⟩ := len_succ (n := 0) h2
  obtain rfl := List.length_eq_zero.mp h3
  exact ⟨b0, b1, b2, rfl⟩

theorem exists_len4 {l : List Nat} (h : l.length = 4) :
    ∃ b0 b1 b2 b3, l = [b0, b1, b2, b3] := by
  obtain ⟨b0, l, rfl, h1⟩ := len_succ (n := 3) h
  obtain ⟨b1, b2, b3, he⟩ := exists_len3 h1
  exact ⟨b0, b1, b2, b3, by rw [he]⟩

theorem exists_len6 {l : List Nat} (h : l.length = 6) :
    ∃ b0 b1 b2 b3 b4 b5, l = [b0, b1, b2, b3, b4, b5] := by
  obtain ⟨b0, l, rfl, h1⟩ := len_succ (n := 5) h
  obtain ⟨b1, l, rfl, h2⟩ := len_succ (n := 4) h1
  obtain ⟨b2, b3, b4, b5, he⟩ := exists_len4 h2
  exact ⟨b0, b1, b2, b3, b4, b5, by rw [he]⟩

theorem exists_len20 {l : List Nat} (h : l.length = 20) :
    ∃ b0 b1 b2 b3 b4 b5 b6 b7 b8 b9 b10 b11 b12 b13 b14 b15 b16 b17 b18 b19,
      l = [b0, b1, b2, b3, b4, b5, b6, b7, b8, b9,
           b10, b11, b12, b13, b14, b15, b16, b17, b18, b19] := by
  obtain ⟨b0, l, rfl, h1⟩ := len_succ (n := 19) h
  obtain ⟨b1, l, rfl, h2⟩ := len_succ (n := 18) h1
  obtain ⟨b2, l, rfl, h3⟩ := len_succ (n := 17) h2
  obtain ⟨b3, l, rfl, h4⟩ := len_succ (n := 16) h3
  obtain ⟨b4, l, rfl, h5⟩ := len_succ (n := 15) h4
  obtain ⟨b5, l, rfl, h6⟩ := len_succ (n := 14) h5
  obtain ⟨b6, l, rfl, h7⟩ := len_succ (n := 13) h6
  obtain ⟨b7, l, rfl, h8⟩ := len_succ (n := 12) h7
  obtain ⟨b8, l, rfl, h9⟩ := len_succ (n := 11) h8
  obtain ⟨b9, l, rfl, h10⟩ := len_succ (n := 10) h9
  obtain ⟨b10, l, rfl, h11⟩ := len_succ (n := 9) h10
  obtain ⟨b11, l, rfl, h12⟩ := len_succ (n := 8) h11
  obtain ⟨b12, l, rfl, h13⟩ := len_succ (n := 7) h12
  obtain ⟨b13, l, rfl, h14⟩ := len_succ (n := 6) h13
  obtain ⟨b14, l, rfl, h15⟩ := len_succ (n := 5) h14
  obtain ⟨b15, l, rfl, h16⟩ := len_succ (n := 4) h15
  obtain ⟨b16, b17, b18, b19, he⟩ := exists_len4 h16
  exact ⟨b0, b1, b2, b3, b4, b5, b6, b7, b8, b9, b10, b11, b12, b13, b14, b15,
    b16, b17, b18, b19, by rw [he]⟩

/-! Round-trip lemmas: struct.unpack of struct.pack recovers every well-formed
record, one lemma per header codec. -/

theorem eth_parse_pack (x : StructEthHeader) (hwf : x.Wf) :
    StructEthHeader.parse? x.pack = some x := by
  obtain ⟨hd, hs, ht⟩ := hwf
  obtain ⟨d0, d1, d2, d3, d4, d5, hde⟩ := exists_len6 hd
  obtain ⟨s0, s1, s2, s3, s4, s5, hse⟩ := exists_len6 hs
  cases x with
  | mk dst src t =>
    simp only at hde hse ht
    subst hde hse
    simp only [StructEthHeader.pack, be2, List.cons_append, List.nil_append,
      StructEthHeader.parse?, Option.some.injEq, StructEthHeader.mk.injEq, true_and]
    omega

theorem nsh_parse_pack (x : StructNshHeader) (hwf : x.Wf) :
    StructNshHeader.parse? x.pack = some x := by
  obtain ⟨h1, h2, h3, h4, h5, h6, h7, h8⟩ := hwf
  cases x with
  | mk fl md np sph c1 c2 c3 c4 =>
    simp only at h1 h2 h3 h4 h5 h6 h7 h8
    simp only [StructNshHeader.pack, be2, be4, List.cons_append, List.nil_append,
      StructNshHeader.parse?, Option.some.injEq, StructNshHeader.mk.injEq]
    omega

theorem udp_parse_pack (x : StructUdpHeader) (hwf : x.Wf) :
    StructUdpHeader.parse? x.pack = some x := by
  obtain ⟨h1, h2, h3, h4⟩ := hwf
  cases x with
  | mk a b c d =>
    simp only at h1 h2 h3 h4
    simp only [StructUdpHeader.pack, be2, List.cons_append, List.nil_append,
      StructUdpHeader.parse?, Option.some.injEq, StructUdpHeader.mk.injEq]
    omega

theorem ip_parse_pack (x : StructIpHeader) (hwf : x.Wf) :
    StructIpHeader.parse? x.pack = some x := by
  obtain ⟨h1, h2, h3, h4, h5, h6, h7, h8, h9⟩ := hwf
  obtain ⟨s0, s1, s2, s3, hse⟩ := exists_len4 h8
  obtain ⟨t0, t1, t2, t3, hte⟩ := exists_len4 h9
  cases x with
  | mk v tl id ff ttl prot ck src dst =>
    simp only at h1 h2 h3 h4 h5 h6 h7 hse hte
    subst hse hte
    simp only [StructIpHeader.pack, be2, List.cons_append, List.nil_append,
      List.append_assoc, StructIpHeader.parse?, Option.some.injEq,
      StructIpHeader.mk.injEq, true_and, and_true]
    omega

theorem tcp_parse_pack (x : StructTcpHeaderWithoutOptions) (hwf : x.Wf) :
    StructTcpHeaderWithoutOptions.parse? x.pack = some x := by
  obtain ⟨h1, h2, h3, h4, h5, h6, h7, h8, h9⟩ := hwf
  cases x with
  | mk sp dp seq ack off fl win ck urg =>
    simp only at h1 h2 h3 h4 h5 h6 h7 h8 h9
    simp only [StructTcpHeaderWithoutOptions.pack, be2, be4, List.cons_append,
      List.nil_append, StructTcpHeaderWithoutOptions.parse?, Option.some.injEq,
      StructTcpHeaderWithoutOptions.mk.injEq]
    omega

theorem pseudo_parse_pack (x : StructPseudoHeader) (hwf : x.Wf) :
    StructPseudoHeader.parse? x.pack = some x := by
  obtain ⟨h1, h2, h3, h4, h5⟩ := hwf
  obtain ⟨s0, s1, s2, s3, hse⟩ := exists_len4 h1
  obtain ⟨t0, t1, t2, t3, hte⟩ := exists_len4 h2
  cases x with
  | mk src dst z p tl =>
    simp only at h3 h4 h5 hse hte
    subst hse hte
    simp only [StructPseudoHeader.pack, be2, List.cons_append, List.nil_append,
      List.append_assoc, StructPseudoHeader.parse?, Option.some.injEq,
      StructPseudoHeader.mk.injEq, true_and, and_true]
    omega

theorem vxlan_parse_pack (x : StructVxLanGPEHeader) (hwf : x.Wf) :
    StructVxLanGPEHeader.parse? x.pack = some x := by
  obtain ⟨h1, h2, h3, h4, h5⟩ := hwf
  obtain ⟨v0, v1, v2, hve⟩ := exists_len3 h4
  cases x with
  | mk f r1 p vni r2 =>
    simp only at h1 h2 h3 h5 hve
    subst hve
    simp only [StructVxLanGPEHeader.pack, be2, List.cons_append, List.nil_append,
      List.append_assoc, StructVxLanGPEHeader.parse?, Option.some.injEq,
      StructVxLanGPEHeader.mk.injEq, true_and, and_true]
    omega

/-! One's-complement arithmetic used to state the checksum claims. -/

/-- The 16-bit one's-complement fold of a sum: repeatedly add the upper carry
word back into the low 16 bits until the value fits in 16 bits. -/
def onesCompFold (s : Nat) : Nat :=
  if s < 65536 then s
  else onesCompFold (s / 65536 + s % 65536)
termination_by s
decreasing_by omega

/-- Sum of the 16-bit words of a byte string read in big-endian (network)
order, padding a trailing lone byte with zero. -/
def sumBEWords : List Nat → Nat
  | b0 :: b1 :: rest => (256 * b0 + b1) + sumBEWords rest
  | [b0] => 256 * b0
  | [] => 0

theorem onesCompFold_spec (s : Nat) :
    onesCompFold s < 65536 ∧ onesCompFold s % 65535 = s % 65535 ∧
      (0 < s → 0 < onesCompFold s) := by
  induction s using Nat.strong_induction_on with
  | _ s ih =>
    rw [onesCompFold]
    split
    · exact ⟨by omega, rfl, fun h => h⟩
    · have hlt : s / 65536 + s % 65536 < s := by omega
      obtain ⟨a, b, c⟩ := ih _ hlt
      exact ⟨a, by omega, fun hp => c (by omega)⟩

theorem onesCompFold_eq_ffff {s : Nat} (hmod : s % 65535 = 0) (hpos : 0 < s) :
    onesCompFold s = 65535 := by
  obtain ⟨a, b, c⟩ := onesCompFold_spec s
  have := c hpos
  omega

theorem nsh_pack_length (x : StructNshHeader) : x.pack.length = 24 := by
  simp [StructNshHeader.pack, be2, be4]

/-- C6: for every 24-byte NSH MD-Type 1 header whose service index (the low
8 bits of the service path header) is at least 1, make_nsh_decr_si returns a
24-byte NSH equal to the input except that the service index is exactly one
less; the 24-bit SPI and the flags and length, MD type, next protocol and four
context words are unchanged. -/
theorem nsh_decr_si_correct (nsh : List Nat) (nt : StructNshHeader)
    (hb : isBytes nsh)
    (hp : StructNshHeader.parse? nsh = some nt)
    (hsi : 1 ≤ nt.get_nsh_si) :
    ∃ out nt2, make_nsh_decr_si nsh = some out ∧ out.length = 24 ∧
      StructNshHeader.parse? out = some nt2 ∧
      nt2.get_nsh_si = nt.get_nsh_si - 1 ∧
      nt2.get_nsh_spi = nt.get_nsh_spi ∧
      nt2.nsh_flags_length = nt.nsh_flags_length ∧
      nt2.nsh_md_type = nt.nsh_md_type ∧
      nt2.nsh_np = nt.nsh_np ∧
      nt2.nsh_ctx1 = nt.nsh_ctx1 ∧ nt2.nsh_ctx2 = nt.nsh_ctx2 ∧
      nt2.nsh_ctx3 = nt.nsh_ctx3 ∧ nt2.nsh_ctx4 = nt.nsh_ctx4 := by
  unfold StructNshHeader.parse? at hp
  split at hp
  · next f0 f1 m0 p0 s0 s1 s2 s3 c0 c1 c2 c3 c4 c5 c6 c7 c8 c9 c10 c11 c12 c13 c14 c15 =>
    simp only [Option.some.injEq] at hp
    subst hp
    simp only [isBytes, List.mem_cons, List.not_mem_nil, forall_eq_or_imp,
      forall_eq, or_false, false_implies, and_true] at hb
    simp only [StructNshHeader.get_nsh_si] at hsi
    simp only [make_nsh_decr_si, StructNshHeader.parse?,
      StructNshHeader.get_nsh_spi, StructNshHeader.get_nsh_si]
    rw [if_pos (by omega)]
    have htn : (((256 * (256 * (256 * s0 + s1) + s2) + s3) / 256 % 16777216 : Nat) * 256 +
          (((256 * (256 * (256 * s0 + s1) + s2) + s3) % 256 : Nat) - 1) : Int).toNat =
        (256 * (256 * (256 * s0 + s1) + s2) + s3) / 256 % 16777216 * 256 +
          ((256 * (256 * (256 * s0 + s1) + s2) + s3) % 256 - 1) := by
      omega
    rw [htn]
    refine ⟨_, _, rfl, nsh_pack_length _, nsh_parse_pack _ ?_, ?_, ?_, rfl, rfl, rfl,
      rfl, rfl, rfl, rfl⟩
    · simp only [StructNshHeader.Wf]
      refine ⟨by omega, by omega, by omega, by omega, by omega, by omega, by omega, by omega⟩
    · simp only [StructNshHeader.get_nsh_si]
      omega
    · simp only [StructNshHeader.get_nsh_spi]
      omega
  · exact absurd hp (by simp)

/-- C9: for every well-formed header record of each codec type (Ethernet,
20-byte IPv4, UDP, VXLAN-GPE, NSH MD-Type 1, TCP base header, pseudo-header),
with address fields of the declared byte width and integer fields within their
declared ranges, parsing the bytes produced by pack yields the record again. -/
theorem codec_roundtrip :
    (∀ x : StructEthHeader, x.Wf → StructEthHeader.parse? x.pack = some x) ∧
    (∀ x : StructIpHeader, x.Wf → StructIpHeader.parse? x.pack = some x) ∧
    (∀ x : StructUdpHeader, x.Wf → StructUdpHeader.parse? x.pack = some x) ∧
    (∀ x : StructVxLanGPEHeader, x.Wf → StructVxLanGPEHeader.parse? x.pack = some x) ∧
    (∀ x : StructNshHeader, x.Wf → StructNshHeader.parse? x.pack = some x) ∧
    (∀ x : StructTcpHeaderWithoutOptions, x.Wf →
      StructTcpHeaderWithoutOptions.parse? x.pack = some x) ∧
    (∀ x : StructPseudoHeader, x.Wf → StructPseudoHeader.parse? x.pack = some x) :=
  ⟨eth_parse_pack, ip_parse_pack, udp_parse_pack, vxlan_parse_pack,
   nsh_parse_pack, tcp_parse_pack, pseudo_parse_pack⟩

/-- Sample Ethernet record for the round-trip witness. -/
def ethW : StructEthHeader :=
  { eth_dst := [1, 2, 3, 4, 5, 6], eth_src := [7, 8, 9, 10, 11, 12], eth_type := 2048 }

/-- Sample IPv4 record for the round-trip witness. -/
def ipW : StructIpHeader :=
  { ip_ver_ihl_type := 17664, ip_total_length := 40, ip_id := 1,
    ip_flags_frag_offset := 0, ip_time2live := 64, ip_protocol := 6,
    ip_hdr_checksum := 4660, ip_src := [10, 0, 0, 1], ip_dst := [10, 0, 0, 2] }

/-- Sample UDP record for the round-trip witness. -/
def udpW : StructUdpHeader :=
  { udp_src_port := 4790, udp_dst_port := 4790, udp_data_length := 8, udp_checksum := 0 }

/-- Sample VXLAN-GPE record for the round-trip witness. -/
def vxlanW : StructVxLanGPEHeader :=
  { vxlan_flags := 12, vxlan_reserved1 := 0, next_proto := 3,
    vni := [0, 0, 1], vxlan_reserved2 := 0 }

/-- Sample NSH record for the round-trip witness. -/
def nshW : StructNshHeader :=
  { nsh_flags_length := 6, nsh_md_type := 1, nsh_np := 3, nsh_sph := 65541,
    nsh_ctx1 := 0, nsh_ctx2 := 0, nsh_ctx3 := 0, nsh_ctx4 := 0 }

/-- Sample TCP record for the round-trip witness. -/
def tcpW : StructTcpHeaderWithoutOptions :=
  { tcp_src_port := 40000, tcp_dst_port := 80, tcp_seq_number := 1000,
    tcp_ack := 2000, tcp_byte_data_offset := 80, tcp_flags := 16,
    tcp_win_size := 512, tcp_checksum := 0, tcp_urgent_ptr := 0 }

/-- Sample pseudo-header record for the round-trip witness. -/
def pseudoW : StructPseudoHeader :=
  { src := [10, 0, 0, 1], dst := [10, 0, 0, 2], zero := 0, protocol := 6,
    tcp_length := 20 }

/-- Witness for C9: the round-trip theorem applied at one concrete record of
each codec type. -/
theorem codec_roundtrip_witness :
    (ethW.Wf ∧ StructEthHeader.parse? ethW.pack = some ethW) ∧
    (ipW.Wf ∧ StructIpHeader.parse? ipW.pack = some ipW) ∧
    (udpW.Wf ∧ StructUdpHeader.parse? udpW.pack = some udpW) ∧
    (vxlanW.Wf ∧ StructVxLanGPEHeader.parse? vxlanW.pack = some vxlanW) ∧
    (nshW.Wf ∧ StructNshHeader.parse? nshW.pack = some nshW) ∧
    (tcpW.Wf ∧ StructTcpHeaderWithoutOptions.parse? tcpW.pack = some tcpW) ∧
    (pseudoW.Wf ∧ StructPseudoHeader.parse? pseudoW.pack = some pseudoW) :=
  ⟨⟨by decide, codec_roundtrip.1 ethW (by decide)⟩,
   ⟨by decide, codec_roundtrip.2.1 ipW (by decide)⟩,
   ⟨by decide, codec_roundtrip.2.2.1 udpW (by decide)⟩,
   ⟨by decide, codec_roundtrip.2.2.2.1 vxlanW (by decide)⟩,
   ⟨by decide, codec_roundtrip.2.2.2.2.1 nshW (by decide)⟩,
   ⟨by decide, codec_roundtrip.2.2.2.2.2.1 tcpW (by decide)⟩,
   ⟨by decide, codec_roundtrip.2.2.2.2.2.2 pseudoW (by decide)⟩⟩

/-- Sample 24-byte NSH header (SPI 256, SI 5) for the decrement witness. -/
def nshSample : List Nat :=
  [0, 6, 1, 3, 0, 1, 0, 5, 0, 0, 0, 0, 0, 0, 0, 0, 0, 0, 0, 0, 0, 0, 0, 0]

/-- The record nshSample parses to. -/
def nshSampleNt : StructNshHeader :=
  { nsh_flags_length := 6, nsh_md_type := 1, nsh_np := 3, nsh_sph := 65541,
    nsh_ctx1 := 0, nsh_ctx2 := 0, nsh_ctx3 := 0, nsh_ctx4 := 0 }

/-- Witness for C6: the decrement theorem applied at a concrete NSH header
with SPI 256 and SI 5. -/
theorem nsh_decr_si_witness :
    isBytes nshSample ∧ StructNshHeader.parse? nshSample = some nshSampleNt ∧
      1 ≤ nshSampleNt.get_nsh_si ∧
      (∃ out nt2, make_nsh_decr_si nshSample = some out ∧ out.length = 24 ∧
        StructNshHeader.parse? out = some nt2 ∧
        nt2.get_nsh_si = nshSampleNt.get_nsh_si - 1 ∧
        nt2.get_nsh_spi = nshSampleNt.get_nsh_spi ∧
        nt2.nsh_flags_length = nshSampleNt.nsh_flags_length ∧
        nt2.nsh_md_type = nshSampleNt.nsh_md_type ∧
        nt2.nsh_np = nshSampleNt.nsh_np ∧
        nt2.nsh_ctx1 = nshSampleNt.nsh_ctx1 ∧ nt2.nsh_ctx2 = nshSampleNt.nsh_ctx2 ∧
        nt2.nsh_ctx3 = nshSampleNt.nsh_ctx3 ∧ nt2.nsh_ctx4 = nshSampleNt.nsh_ctx4) :=
  ⟨by decide, rfl, by decide,
   nsh_decr_si_correct nshSample nshSampleNt (by decide) rfl (by decide)⟩

theorem calculate_checksum_lt (pkt : List Nat) : calculate_checksum pkt < 65536 := by
  simp only [calculate_checksum]
  omega

theorem sumLE_append_zero (l : List Nat) : sumLEWords (l ++ [0]) = sumLEWords l := by
  induction l using sumLEWords.induct with
  | case1 b0 b1 rest ih =>
    simp only [List.cons_append, sumLEWords, List.append_eq] at ih ⊢
    omega
  | case2 b0 => simp [sumLEWords]
  | case3 => simp [sumLEWords]

theorem sumBE_mod_sumLE (l : List Nat) :
    sumBEWords l % 65535 = 256 * sumLEWords l % 65535 := by
  induction l using sumLEWords.induct with
  | case1 b0 b1 rest ih => simp only [sumBEWords, sumLEWords]; omega
  | case2 b0 => simp only [sumBEWords, sumLEWords]
  | case3 => simp [sumBEWords, sumLEWords]

theorem sumLE_le_len (l : List Nat) (hb : isBytes l) : sumLEWords l ≤ 65535 * l.length := by
  induction l using sumLEWords.induct with
  | case1 b0 b1 rest ih =>
    have h0 : b0 < 256 := hb b0 (by simp)
    have h1 : b1 < 256 := hb b1 (by simp)
    have := ih (fun b hm => hb b (by simp [hm]))
    simp only [sumLEWords, List.length_cons]
    omega
  | case2 b0 =>
    have h0 : b0 < 256 := hb b0 (by simp)
    simp only [sumLEWords, List.length_cons, List.length_nil]
    omega
  | case3 => simp [sumLEWords]

theorem sumLE_le_sumBE (l : List Nat) : sumLEWords l ≤ 256 * sumBEWords l := by
  induction l using sumLEWords.induct with
  | case1 b0 b1 rest ih => simp only [sumBEWords, sumLEWords]; omega
  | case2 b0 => simp only [sumBEWords, sumLEWords]; omega
  | case3 => simp [sumBEWords, sumLEWords]

theorem fold_mod_zero (S : Nat) (hS : S ≤ 65535000) :
    (65535 - (S / 65536 + S % 65536 + (S / 65536 + S % 65536) / 65536) % 65536 + S) % 65535 = 0 := by
  rcases Nat.lt_or_ge (S / 65536 + S % 65536) 65536 with hc | hc
  · have ht : (S / 65536 + S % 65536) / 65536 = 0 := Nat.div_eq_of_lt hc
    rw [ht, Nat.add_zero, Nat.mod_eq_of_lt hc]
    have heq : 65535 - (S / 65536 + S % 65536) + S = 65535 * (1 + S / 65536) := by omega
    rw [heq]
    exact Nat.mul_mod_right 65535 _
  · have ht : (S / 65536 + S % 65536) / 65536 = 1 := by omega
    rw [ht]
    have hm : (S / 65536 + S % 65536 + 1) % 65536 = S / 65536 + S % 65536 - 65535 := by omega
    rw [hm]
    have heq : 65535 - (S / 65536 + S % 65536 - 65535) + S = 65535 * (2 + S / 65536) := by omega
    rw [heq]
    exact Nat.mul_mod_right 65535 _

theorem swap_mod_65535 (t : Nat) :
    (255 - t / 256 % 256 + 256 * (255 - t % 256)) % 65535 =
      (256 * (65535 - t % 65536)) % 65535 := by
  have hmm : t % 65536 = t % 256 + 256 * (t / 256 % 256) := by omega
  rw [hmm]
  have key : 256 * (65535 - (t % 256 + 256 * (t / 256 % 256))) =
      (255 - t / 256 % 256 + 256 * (255 - t % 256)) + 65535 * (255 - t / 256 % 256) := by
    omega
  rw [key]
  exact (Nat.add_mul_mod_self_left _ 65535 _).symm

theorem ck_core (S : Nat) (hS : S ≤ 65535000) :
    (255 - (S / 65536 + S % 65536 + (S / 65536 + S % 65536) / 65536) / 256 % 256 +
      256 * (255 - (S / 65536 + S % 65536 + (S / 65536 + S % 65536) / 65536) % 256) +
      256 * S) % 65535 = 0 := by
  have hswap := swap_mod_65535 (S / 65536 + S % 65536 + (S / 65536 + S % 65536) / 65536)
  have hfold := fold_mod_zero S hS
  omega

theorem checksum_congruence (l : List Nat) (hb : isBytes l) (hlen : l.length ≤ 1000) :
    (calculate_checksum l + 256 * sumLEWords l) % 65535 = 0 := by
  have hS : sumLEWords l ≤ 65535000 := by
    have h1 := sumLE_le_len l hb
    have h2 : 65535 * l.length ≤ 65535 * 1000 := Nat.mul_le_mul_left _ hlen
    omega
  simp only [calculate_checksum]
  split
  · rw [sumLE_append_zero]
    exact ck_core (sumLEWords l) hS
  · exact ck_core (sumLEWords l) hS

theorem checksum_of_zero_sum (l : List Nat) (h : sumLEWords l = 0) :
    calculate_checksum l = 65535 := by
  simp only [calculate_checksum]
  split
  · rw [sumLE_append_zero, h]
  · rw [h]

theorem calculate_checksum_congr {l1 l2 : List Nat} (hlen : l1.length = l2.length)
    (hsum : sumLEWords l1 = sumLEWords l2) :
    calculate_checksum l1 = calculate_checksum l2 := by
  simp only [calculate_checksum, hlen]
  by_cases hc : l2.length % 2 = 1
  · rw [if_pos hc, if_pos hc, sumLE_append_zero, sumLE_append_zero, hsum]
  · rw [if_neg hc, if_neg hc, hsum]

/-- C7: for every 20-byte IPv4 header and every 16-bit value n, make_ip_header
returns a header whose total length is n, whose other fields except the
checksum are unchanged, and whose checksum makes the 16-bit one's-complement
sum over the entire resulting 20-byte header fold to 0xFFFF. -/
theorem make_ip_header_checksum (h : List Nat) (n : Nat) (r : StructIpHeader)
    (hb : isBytes h)
    (hp : StructIpHeader.parse? h = some r) (hn : n < 65536) :
    ∃ h2 r2, make_ip_header h n = some h2 ∧ StructIpHeader.parse? h2 = some r2 ∧
      r2.ip_total_length = n ∧
      r2.ip_ver_ihl_type = r.ip_ver_ihl_type ∧ r2.ip_id = r.ip_id ∧
      r2.ip_flags_frag_offset = r.ip_flags_frag_offset ∧
      r2.ip_time2live = r.ip_time2live ∧ r2.ip_protocol = r.ip_protocol ∧
      r2.ip_src = r.ip_src ∧ r2.ip_dst = r.ip_dst ∧
      onesCompFold (sumBEWords h2) = 65535 := by
  unfold StructIpHeader.parse? at hp
  split at hp
  · next a0 a1 b0 b1 c0 c1 d0 d1 e0 e1 f0 f1 s0 s1 s2 s3 t0 t1 t2 t3 =>
    simp only [Option.some.injEq] at hp
    subst hp
    simp only [isBytes, List.mem_cons, List.not_mem_nil, forall_eq_or_imp,
      forall_eq, or_false, false_implies, and_true] at hb
    have hmk : make_ip_header
        [a0, a1, b0, b1, c0, c1, d0, d1, e0, e1, f0, f1, s0, s1, s2, s3, t0, t1, t2, t3] n =
        some (StructIpHeader.pack
          { ip_ver_ihl_type := 256 * a0 + a1, ip_total_length := n, ip_id := 256 * c0 + c1,
            ip_flags_frag_offset := 256 * d0 + d1, ip_time2live := e0, ip_protocol := e1,
            ip_hdr_checksum := calculate_ip_checksum (StructIpHeader.pack
              { ip_ver_ihl_type := 256 * a0 + a1, ip_total_length := n, ip_id := 256 * c0 + c1,
                ip_flags_frag_offset := 256 * d0 + d1, ip_time2live := e0, ip_protocol := e1,
                ip_hdr_checksum := 256 * f0 + f1, ip_src := [s0, s1, s2, s3],
                ip_dst := [t0, t1, t2, t3] }),
            ip_src := [s0, s1, s2, s3], ip_dst := [t0, t1, t2, t3] }) := rfl
    refine ⟨_, _, hmk, ip_parse_pack _ ?_, rfl, rfl, rfl, rfl, rfl, rfl, rfl, rfl, ?_⟩
    · simp only [StructIpHeader.Wf]
      refine ⟨by omega, hn, by omega, by omega, by omega, by omega,
        calculate_checksum_lt _, rfl, rfl⟩
    · have hb1 : StructIpHeader.pack
          { ip_ver_ihl_type := 256 * a0 + a1, ip_total_length := n, ip_id := 256 * c0 + c1,
            ip_flags_frag_offset := 256 * d0 + d1, ip_time2live := e0, ip_protocol := e1,
            ip_hdr_checksum := 256 * f0 + f1, ip_src := [s0, s1, s2, s3],
            ip_dst := [t0, t1, t2, t3] } =
          [a0, a1, n / 256 % 256, n % 256, c0, c1, d0, d1, e0, e1, f0, f1,
           s0, s1, s2, s3, t0, t1, t2, t3] := by
        simp [StructIpHeader.pack, be2]
        omega
      rw [hb1]
      have hb2 : StructIpHeader.pack
          { ip_ver_ihl_type := 256 * a0 + a1, ip_total_length := n, ip_id := 256 * c0 + c1,
            ip_flags_frag_offset := 256 * d0 + d1, ip_time2live := e0, ip_protocol := e1,
            ip_hdr_checksum := calculate_ip_checksum
              [a0, a1, n / 256 % 256, n % 256, c0, c1, d0, d1, e0, e1, f0, f1,
               s0, s1, s2, s3, t0, t1, t2, t3],
            ip_src := [s0, s1, s2, s3], ip_dst := [t0, t1, t2, t3] } =
          [a0, a1, n / 256 % 256, n % 256, c0, c1, d0, d1, e0, e1,
           calculate_ip_checksum
              [a0, a1, n / 256 % 256, n % 256, c0, c1, d0, d1, e0, e1, f0, f1,
               s0, s1, s2, s3, t0, t1, t2, t3] / 256 % 256,
           calculate_ip_checksum
              [a0, a1, n / 256 % 256, n % 256, c0, c1, d0, d1, e0, e1, f0, f1,
               s0, s1, s2, s3, t0, t1, t2, t3] % 256,
           s0, s1, s2, s3, t0, t1, t2, t3] := by
        simp [StructIpHeader.pack, be2]
        omega
      rw [hb2]
      have hzb : isBytes [a0, a1, n / 256 % 256, n % 256, c0, c1, d0, d1, e0, e1, 0, 0,
          s0, s1, s2, s3, t0, t1, t2, t3] := by
        simp only [isBytes, List.mem_cons, List.not_mem_nil, forall_eq_or_imp,
          forall_eq, or_false, false_implies, and_true]
        omega
      have hcong : (calculate_ip_checksum
            [a0, a1, n / 256 % 256, n % 256, c0, c1, d0, d1, e0, e1, f0, f1,
             s0, s1, s2, s3, t0, t1, t2, t3] +
          256 * sumLEWords [a0, a1, n / 256 % 256, n % 256, c0, c1, d0, d1, e0, e1, 0, 0,
            s0, s1, s2, s3, t0, t1, t2, t3]) % 65535 = 0 :=
        checksum_congruence _ hzb (by simp)
      have hbe := sumBE_mod_sumLE [a0, a1, n / 256 % 256, n % 256, c0, c1, d0, d1, e0, e1,
        0, 0, s0, s1, s2, s3, t0, t1, t2, t3]
      have hle := sumLE_le_sumBE [a0, a1, n / 256 % 256, n % 256, c0, c1, d0, d1, e0, e1,
        0, 0, s0, s1, s2, s3, t0, t1, t2, t3]
      have hcklt : calculate_ip_checksum
          [a0, a1, n / 256 % 256, n % 256, c0, c1, d0, d1, e0, e1, f0, f1,
           s0, s1, s2, s3, t0, t1, t2, t3] < 65536 := calculate_checksum_lt _
      have hsplit : sumBEWords
          [a0, a1, n / 256 % 256, n % 256, c0, c1, d0, d1, e0, e1,
           calculate_ip_checksum
              [a0, a1, n / 256 % 256, n % 256, c0, c1, d0, d1, e0, e1, f0, f1,
               s0, s1, s2, s3, t0, t1, t2, t3] / 256 % 256,
           calculate_ip_checksum
              [a0, a1, n / 256 % 256, n % 256, c0, c1, d0, d1, e0, e1, f0, f1,
               s0, s1, s2, s3, t0, t1, t2, t3] % 256,
           s0, s1, s2, s3, t0, t1, t2, t3] =
          sumBEWords [a0, a1, n / 256 % 256, n % 256, c0, c1, d0, d1, e0, e1, 0, 0,
            s0, s1, s2, s3, t0, t1, t2, t3] +
          calculate_ip_checksum
            [a0, a1, n / 256 % 256, n % 256, c0, c1, d0, d1, e0, e1, f0, f1,
             s0, s1, s2, s3, t0, t1, t2, t3] := by
        simp only [sumBEWords]
        omega
      rw [hsplit]
      apply onesCompFold_eq_ffff
      · omega
      · rcases Nat.eq_zero_or_pos (sumBEWords [a0, a1, n / 256 % 256, n % 256, c0, c1,
          d0, d1, e0, e1, 0, 0, s0, s1, s2, s3, t0, t1, t2, t3]) with h0 | hpos
        · have hz0 : sumLEWords [a0, a1, n / 256 % 256, n % 256, c0, c1, d0, d1, e0, e1,
              0, 0, s0, s1, s2, s3, t0, t1, t2, t3] = 0 := by omega
          have h65 : calculate_ip_checksum
              [a0, a1, n / 256 % 256, n % 256, c0, c1, d0, d1, e0, e1, f0, f1,
               s0, s1, s2, s3, t0, t1, t2, t3] = 65535 :=
            checksum_of_zero_sum _ hz0
          omega
        · omega
  · exact absurd hp (by simp)

/-- Sample 20-byte IPv4 header for the checksum witnesses. -/
def ipHdrSample : List Nat :=
  [69, 0, 0, 40, 0, 1, 0, 0, 64, 6, 18, 52, 10, 0, 0, 1, 10, 0, 0, 2]

/-- The record ipHdrSample parses to. -/
def ipHdrSampleNt : StructIpHeader :=
  { ip_ver_ihl_type := 17664, ip_total_length := 40, ip_id := 1,
    ip_flags_frag_offset := 0, ip_time2live := 64, ip_protocol := 6,
    ip_hdr_checksum := 4660, ip_src := [10, 0, 0, 1], ip_dst := [10, 0, 0, 2] }

/-- Witness for C7: the total-length rewrite theorem applied at a concrete
header and length 100. -/
theorem make_ip_header_checksum_witness :
    isBytes ipHdrSample ∧ StructIpHeader.parse? ipHdrSample = some ipHdrSampleNt ∧
      100 < 65536 ∧
      (∃ h2 r2, make_ip_header ipHdrSample 100 = some h2 ∧
        StructIpHeader.parse? h2 = some r2 ∧
        r2.ip_total_length = 100 ∧
        r2.ip_ver_ihl_type = ipHdrSampleNt.ip_ver_ihl_type ∧ r2.ip_id = ipHdrSampleNt.ip_id ∧
        r2.ip_flags_frag_offset = ipHdrSampleNt.ip_flags_frag_offset ∧
        r2.ip_time2live = ipHdrSampleNt.ip_time2live ∧
        r2.ip_protocol = ipHdrSampleNt.ip_protocol ∧
        r2.ip_src = ipHdrSampleNt.ip_src ∧ r2.ip_dst = ipHdrSampleNt.ip_dst ∧
        onesCompFold (sumBEWords h2) = 65535) :=
  ⟨by decide, rfl, by decide,
   make_ip_header_checksum ipHdrSample 100 ipHdrSampleNt (by decide) rfl (by decide)⟩

/-- C8: for every 20-byte IPv4 header, exchanging the source and destination
addresses leaves the Internet checksum computation invariant, so a header
whose stored checksum verifies (one's-complement sum folding to 0xFFFF) still
verifies after the swap even though the checksum field is not recomputed. -/
theorem ip_swap_checksum (h h2 : List Nat)
    (hb : isBytes h)
    (hs : make_ip_header_swap h = some h2) :
    calculate_ip_checksum h2 = calculate_ip_checksum h ∧
      (onesCompFold (sumBEWords h) = 65535 → onesCompFold (sumBEWords h2) = 65535) := by
  unfold make_ip_header_swap at hs
  cases hq : StructIpHeader.parse? h with
  | none => rw [hq] at hs; exact absurd hs (by simp)
  | some r =>
    rw [hq] at hs
    simp only [Option.map_some', Option.some.injEq] at hs
    subst hs
    unfold StructIpHeader.parse? at hq
    split at hq
    · next a0 a1 b0 b1 c0 c1 d0 d1 e0 e1 f0 f1 s0 s1 s2 s3 t0 t1 t2 t3 =>
      simp only [Option.some.injEq] at hq
      subst hq
      simp only [isBytes, List.mem_cons, List.not_mem_nil, forall_eq_or_imp,
        forall_eq, or_false, false_implies, and_true] at hb
      have hb2 : StructIpHeader.pack
          { ip_ver_ihl_type := 256 * a0 + a1, ip_total_length := 256 * b0 + b1,
            ip_id := 256 * c0 + c1, ip_flags_frag_offset := 256 * d0 + d1,
            ip_time2live := e0, ip_protocol := e1, ip_hdr_checksum := 256 * f0 + f1,
            ip_src := [t0, t1, t2, t3], ip_dst := [s0, s1, s2, s3] } =
          [a0, a1, b0, b1, c0, c1, d0, d1, e0, e1, f0, f1,
           t0, t1, t2, t3, s0, s1, s2, s3] := by
        simp [StructIpHeader.pack, be2]
        omega
      rw [hb2]
      have heq1 : calculate_ip_checksum
          [a0, a1, b0, b1, c0, c1, d0, d1, e0, e1, f0, f1,
           t0, t1, t2, t3, s0, s1, s2, s3] =
          calculate_checksum
            [a0, a1, b0, b1, c0, c1, d0, d1, e0, e1, 0, 0,
             t0, t1, t2, t3, s0, s1, s2, s3] := rfl
      have heq2 : calculate_ip_checksum
          [a0, a1, b0, b1, c0, c1, d0, d1, e0, e1, f0, f1,
           s0, s1, s2, s3, t0, t1, t2, t3] =
          calculate_checksum
            [a0, a1, b0, b1, c0, c1, d0, d1, e0, e1, 0, 0,
             s0, s1, s2, s3, t0, t1, t2, t3] := rfl
      have hbeq : sumBEWords
          [a0, a1, b0, b1, c0, c1, d0, d1, e0, e1, f0, f1,
           t0, t1, t2, t3, s0, s1, s2, s3] =
          sumBEWords
            [a0, a1, b0, b1, c0, c1, d0, d1, e0, e1, f0, f1,
             s0, s1, s2, s3, t0, t1, t2, t3] := by
        simp only [sumBEWords]
        omega
      refine ⟨?_, ?_⟩
      · rw [heq1, heq2]
        refine calculate_checksum_congr (by simp) ?_
        simp only [sumLEWords]
        omega
      · intro hv
        rw [hbeq]
        exact hv
    · exact absurd hq (by simp)

/-- Witness for C8: the swap-invariance theorem applied at the concrete sample
header. -/
theorem ip_swap_checksum_witness :
    isBytes ipHdrSample ∧
      make_ip_header_swap ipHdrSample =
        some [69, 0, 0, 40, 0, 1, 0, 0, 64, 6, 18, 52, 10, 0, 0, 2, 10, 0, 0, 1] ∧
      (calculate_ip_checksum [69, 0, 0, 40, 0, 1, 0, 0, 64, 6, 18, 52, 10, 0, 0, 2, 10, 0, 0, 1] =
          calculate_ip_checksum ipHdrSample ∧
        (onesCompFold (sumBEWords ipHdrSample) = 65535 →
          onesCompFold (sumBEWords [69, 0, 0, 40, 0, 1, 0, 0, 64, 6, 18, 52,
            10, 0, 0, 2, 10, 0, 0, 1]) = 65535)) :=
  ⟨by decide, rfl,
   ip_swap_checksum ipHdrSample
     [69, 0, 0, 40, 0, 1, 0, 0, 64, 6, 18, 52, 10, 0, 0, 2, 10, 0, 0, 1] (by decide) rfl⟩

theorem sendAll_join : ∀ (sends pkt : List Nat), validSends pkt sends = true →
    ∃ chunks, sendAll pkt sends = some chunks ∧ chunks.flatten = pkt := by
  intro sends
  induction sends with
  | nil =>
    intro pkt hv
    cases pkt with
    | nil => exact ⟨[], rfl, rfl⟩
    | cons a t => simp [validSends] at hv
  | cons s rest ih =>
    intro pkt hv
    cases pkt with
    | nil => exact ⟨[], rfl, rfl⟩
    | cons a t =>
      simp only [validSends, Bool.and_eq_true, decide_eq_true_eq] at hv
      obtain ⟨⟨h1, h2⟩, h3⟩ := hv
      obtain ⟨chunks, hs, hj⟩ := ih _ h3
      refine ⟨(a :: t).take s :: chunks, ?_, ?_⟩
      · simp only [sendAll, hs, Option.map_some']
      · simp only [List.flatten, hj, List.take_append_drop]

/-- C10: for every non-empty outbound frame and every schedule of send results
in which each send consumes at least one byte and at most the bytes remaining,
the write-until-drained loop terminates and the concatenation of the chunks
consumed by the sends is exactly the frame: every byte transmitted once, in
order, with no duplication and no loss. -/
theorem send_loop_drains (pkt : List Nat) (sends : List Nat)
    (hne : pkt ≠ [])
    (hv : validSends pkt sends = true) :
    ∃ chunks, sendAll pkt sends = some chunks ∧ chunks.flatten = pkt :=
  sendAll_join sends pkt hv

/-- Witness for C10: a five-byte frame drained by sends of 2, 2 and 1 bytes. -/
theorem send_loop_drains_witness :
    [1, 2, 3, 4, 5] ≠ ([] : List Nat) ∧ validSends [1, 2, 3, 4, 5] [2, 2, 1] = true ∧
      (∃ chunks, sendAll [1, 2, 3, 4, 5] [2, 2, 1] = some chunks ∧
        chunks.flatten = [1, 2, 3, 4, 5]) :=
  ⟨by decide, by decide, send_loop_drains [1, 2, 3, 4, 5] [2, 2, 1] (by decide) (by decide)⟩

/-- C1: for every frame on the encap interface that parses fully as outer
Ethernet (type 0x0800), IPv4 (protocol 17), UDP (destination port 4790),
VXLAN-GPE, NSH-carrying Ethernet, NSH, inner Ethernet, inner IPv4 and inner
TCP, with inner 7-tuple key k and six-slice bundle B taken verbatim from the
frame: if swap(k) is already a key of the forward table then after processing
the reply table at swap(k) equals B, the forward table is unchanged and the
inner frame (the bytes from the inner Ethernet onward) is emitted on
unencap-in; otherwise the forward table at k equals B (overwriting any
previous entry), the reply table is unchanged and the inner frame is emitted
on unencap-out. -/
theorem decap_session_and_emit (st : ProxyState) (frame : List Nat)
    (et : StructEthHeader) (ipp : List Nat × List Nat) (ipt : StructIpHeader)
    (udpt : StructUdpHeader) (vxt : StructVxLanGPEHeader)
    (ent : StructEthHeader) (nsht : StructNshHeader)
    (iet : StructEthHeader) (iipp : List Nat × List Nat) (iipt : StructIpHeader)
    (t3 : List Nat × List Nat × List Nat) (tcpt : StructTcpHeaderWithoutOptions)
    (hE : StructEthHeader.parse? (parse_ethernet frame).1 = some et)
    (hT : et.eth_type = 0x0800)
    (hI : parse_ip (parse_ethernet frame).2 = Except.ok ipp)
    (hIp : StructIpHeader.parse? ipp.1 = some ipt)
    (hP : ipt.ip_protocol = 17)
    (hU : StructUdpHeader.parse? (parse_udp ipp.2).1 = some udpt)
    (hPort : udpt.udp_dst_port = 4790)
    (hV : StructVxLanGPEHeader.parse? (parse_vxlan_gpe (parse_udp ipp.2).2).1 = some vxt)
    (hEN : StructEthHeader.parse?
      (parse_ethernet (parse_vxlan_gpe (parse_udp ipp.2).2).2).1 = some ent)
    (hN : StructNshHeader.parse?
      (parse_nsh (parse_ethernet (parse_vxlan_gpe (parse_udp ipp.2).2).2).2).1 = some nsht)
    (hIE : StructEthHeader.parse?
      (parse_ethernet (parse_nsh (parse_ethernet
        (parse_vxlan_gpe (parse_udp ipp.2).2).2).2).2).1 = some iet)
    (hII : parse_ip (parse_ethernet (parse_nsh (parse_ethernet
      (parse_vxlan_gpe (parse_udp ipp.2).2).2).2).2).2 = Except.ok iipp)
    (hIIp : StructIpHeader.parse? iipp.1 = some iipt)
    (hTc : parse_tcp iipp.2 = Except.ok t3)
    (hTcp : StructTcpHeaderWithoutOptions.parse? t3.1 = some tcpt) :
    ∃ st2,
      if (st.sessions (FlowKey.swap (keyOf iet iipt tcpt))).isSome then
        parse_frame_and_deencapsulate st frame =
            Except.ok (st2, [(Iface.unencapIn,
              (parse_nsh (parse_ethernet
                (parse_vxlan_gpe (parse_udp ipp.2).2).2).2).2)], true) ∧
          st2.sessions_reply_info (FlowKey.swap (keyOf iet iipt tcpt)) =
            some ⟨(parse_ethernet frame).1, ipp.1, (parse_udp ipp.2).1,
              (parse_vxlan_gpe (parse_udp ipp.2).2).1,
              (parse_ethernet (parse_vxlan_gpe (parse_udp ipp.2).2).2).1,
              (parse_nsh (parse_ethernet
                (parse_vxlan_gpe (parse_udp ipp.2).2).2).2).1⟩ ∧
          st2.sessions = st.sessions ∧
          (∀ k2, k2 ≠ FlowKey.swap (keyOf iet iipt tcpt) →
            st2.sessions_reply_info k2 = st.sessions_reply_info k2)
      else
        parse_frame_and_deencapsulate st frame =
            Except.ok (st2, [(Iface.unencapOut,
              (parse_nsh (parse_ethernet
                (parse_vxlan_gpe (parse_udp ipp.2).2).2).2).2)], true) ∧
          st2.sessions (keyOf iet iipt tcpt) =
            some ⟨(parse_ethernet frame).1, ipp.1, (parse_udp ipp.2).1,
              (parse_vxlan_gpe (parse_udp ipp.2).2).1,
              (parse_ethernet (parse_vxlan_gpe (parse_udp ipp.2).2).2).1,
              (parse_nsh (parse_ethernet
                (parse_vxlan_gpe (parse_udp ipp.2).2).2).2).1⟩ ∧
          st2.sessions_reply_info = st.sessions_reply_info ∧
          (∀ k2, k2 ≠ keyOf iet iipt tcpt → st2.sessions k2 = st.sessions k2) := by
  by_cases hrep : (st.sessions (FlowKey.swap (keyOf iet iipt tcpt))).isSome
  · refine ⟨{ st with sessions_reply_info := update st.sessions_reply_info (FlowKey.swap (keyOf iet iipt tcpt)) (Bundle.mk (parse_ethernet frame).1 ipp.1 (parse_udp ipp.2).1 (parse_vxlan_gpe (parse_udp ipp.2).2).1 (parse_ethernet (parse_vxlan_gpe (parse_udp ipp.2).2).2).1 (parse_nsh (parse_ethernet (parse_vxlan_gpe (parse_udp ipp.2).2).2).2).1) }, ?_⟩
    rw [if_pos hrep]
    refine ⟨?_, ?_, rfl, ?_⟩
    · simp only [parse_frame_and_deencapsulate, hE, hT, hI, hIp, hP, hU, hPort, hV,
        hEN, hN, hIE, hII, hIIp, hTc, hTcp, hrep]
      simp
    · simp [update]
    · intro k2 hk2
      simp [update, hk2]
  · refine ⟨{ st with sessions := update st.sessions (keyOf iet iipt tcpt) (Bundle.mk (parse_ethernet frame).1 ipp.1 (parse_udp ipp.2).1 (parse_vxlan_gpe (parse_udp ipp.2).2).1 (parse_ethernet (parse_vxlan_gpe (parse_udp ipp.2).2).2).1 (parse_nsh (parse_ethernet (parse_vxlan_gpe (parse_udp ipp.2).2).2).2).1) }, ?_⟩
    rw [if_neg hrep]
    refine ⟨?_, ?_, rfl, ?_⟩
    · simp only [parse_frame_and_deencapsulate, hE, hT, hI, hIp, hP, hU, hPort, hV,
        hEN, hN, hIE, hII, hIIp, hTc, hTcp, hrep]
      simp
    · simp [update]
    · intro k2 hk2
      simp [update, hk2]

/-! Concrete encapsulated sample frame for the decap witness. -/

/-- Outer Ethernet of the sample frame (ethertype 0x0800). -/
def outerEthS : List Nat := [17, 17, 17, 17, 17, 17, 34, 34, 34, 34, 34, 34, 8, 0]

/-- Outer IPv4 of the sample frame (IHL 5, protocol 17). -/
def outerIpS : List Nat :=
  [69, 0, 0, 128, 0, 0, 0, 0, 64, 17, 0, 0, 192, 0, 2, 1, 192, 0, 2, 2]

/-- Outer UDP of the sample frame (destination port 4790). -/
def udpS : List Nat := [150, 64, 18, 182, 0, 108, 0, 0]

/-- VXLAN-GPE header of the sample frame. -/
def vxlanS : List Nat := [12, 0, 0, 4, 0, 0, 1, 0]

/-- NSH-carrying Ethernet of the sample frame (ethertype 0x894F). -/
def ethNshS : List Nat := [51, 51, 51, 51, 51, 51, 68, 68, 68, 68, 68, 68, 137, 79]

/-- NSH header of the sample frame (SPI 256, SI 5). -/
def nshS : List Nat :=
  [0, 6, 1, 3, 0, 1, 0, 5, 0, 0, 0, 0, 0, 0, 0, 0, 0, 0, 0, 0, 0, 0, 0, 0]

/-- Inner Ethernet of the sample frame. -/
def innerEthS : List Nat := [1, 2, 3, 4, 5, 6, 7, 8, 9, 10, 11, 12, 8, 0]

/-- Inner IPv4 of the sample frame (IHL 5, protocol 6). -/
def innerIpS : List Nat :=
  [69, 0, 0, 60, 0, 0, 0, 0, 64, 6, 0, 0, 10, 0, 0, 1, 10, 0, 0, 2]

/-- Inner TCP of the sample frame (data offset 5). -/
def innerTcpS : List Nat :=
  [156, 64, 0, 80, 0, 0, 0, 1, 0, 0, 0, 0, 80, 16, 1, 0, 0, 0, 0, 0]

/-- The full encapsulated sample frame. -/
def frameS : List Nat :=
  outerEthS ++ outerIpS ++ udpS ++ vxlanS ++ ethNshS ++ nshS ++
    innerEthS ++ innerIpS ++ innerTcpS

/-- Parsed outer Ethernet record of the sample frame. -/
def etS : StructEthHeader :=
  { eth_dst := [17, 17, 17, 17, 17, 17], eth_src := [34, 34, 34, 34, 34, 34],
    eth_type := 2048 }

/-- Outer IP header and payload of the sample frame. -/
def ippS : List Nat × List Nat :=
  (outerIpS, udpS ++ vxlanS ++ ethNshS ++ nshS ++ innerEthS ++ innerIpS ++ innerTcpS)

/-- Parsed outer IPv4 record of the sample frame. -/
def iptS : StructIpHeader :=
  { ip_ver_ihl_type := 17664, ip_total_length := 128, ip_id := 0,
    ip_flags_frag_offset := 0, ip_time2live := 64, ip_protocol := 17,
    ip_hdr_checksum := 0, ip_src := [192, 0, 2, 1], ip_dst := [192, 0, 2, 2] }

/-- Parsed UDP record of the sample frame. -/
def udptS : StructUdpHeader :=
  { udp_src_port := 38464, udp_dst_port := 4790, udp_data_length := 108,
    udp_checksum := 0 }

/-- Parsed VXLAN-GPE record of the sample frame. -/
def vxtS : StructVxLanGPEHeader :=
  { vxlan_flags := 12, vxlan_reserved1 := 0, next_proto := 4, vni := [0, 0, 1],
    vxlan_reserved2 := 0 }

/-- Parsed NSH-carrying Ethernet record of the sample frame. -/
def entS : StructEthHeader :=
  { eth_dst := [51, 51, 51, 51, 51, 51], eth_src := [68, 68, 68, 68, 68, 68],
    eth_type := 35151 }

/-- Parsed NSH record of the sample frame. -/
def nshtS : StructNshHeader :=
  { nsh_flags_length := 6, nsh_md_type := 1, nsh_np := 3, nsh_sph := 65541,
    nsh_ctx1 := 0, nsh_ctx2 := 0, nsh_ctx3 := 0, nsh_ctx4 := 0 }

/-- Parsed inner Ethernet record of the sample frame. -/
def ietS : StructEthHeader :=
  { eth_dst := [1, 2, 3, 4, 5, 6], eth_src := [7, 8, 9, 10, 11, 12], eth_type := 2048 }

/-- Inner IP header and payload of the sample frame. -/
def iippS : List Nat × List Nat := (innerIpS, innerTcpS)

/-- Parsed inner IPv4 record of the sample frame. -/
def iiptS : StructIpHeader :=
  { ip_ver_ihl_type := 17664, ip_total_length := 60, ip_id := 0,
    ip_flags_frag_offset := 0, ip_time2live := 64, ip_protocol := 6,
    ip_hdr_checksum := 0, ip_src := [10, 0, 0, 1], ip_dst := [10, 0, 0, 2] }

/-- Inner TCP header, options and payload of the sample frame. -/
def t3S : List Nat × List Nat × List Nat := (innerTcpS, [], [])

/-- Parsed inner TCP record of the sample frame. -/
def tcptS : StructTcpHeaderWithoutOptions :=
  { tcp_src_port := 40000, tcp_dst_port := 80, tcp_seq_number := 1,
    tcp_ack := 0, tcp_byte_data_offset := 80, tcp_flags := 16,
    tcp_win_size := 256, tcp_checksum := 0, tcp_urgent_ptr := 0 }

/-- The proxy state with both session tables empty. -/
def emptyState : ProxyState := ⟨fun _ => none, fun _ => none⟩

/-- Witness for C1: the decap theorem applied to the sample frame against the
empty state (the forward branch). -/
theorem decap_session_and_emit_witness :
    StructEthHeader.parse? (parse_ethernet frameS).1 = some etS ∧
    etS.eth_type = 0x0800 ∧
    parse_ip (parse_ethernet frameS).2 = Except.ok ippS ∧
    StructIpHeader.parse? ippS.1 = some iptS ∧
    iptS.ip_protocol = 17 ∧
    StructUdpHeader.parse? (parse_udp ippS.2).1 = some udptS ∧
    udptS.udp_dst_port = 4790 ∧
    StructVxLanGPEHeader.parse? (parse_vxlan_gpe (parse_udp ippS.2).2).1 = some vxtS ∧
    StructEthHeader.parse?
      (parse_ethernet (parse_vxlan_gpe (parse_udp ippS.2).2).2).1 = some entS ∧
    StructNshHeader.parse?
      (parse_nsh (parse_ethernet (parse_vxlan_gpe (parse_udp ippS.2).2).2).2).1 = some nshtS ∧
    StructEthHeader.parse?
      (parse_ethernet (parse_nsh (parse_ethernet
        (parse_vxlan_gpe (parse_udp ippS.2).2).2).2).2).1 = some ietS ∧
    parse_ip (parse_ethernet (parse_nsh (parse_ethernet
      (parse_vxlan_gpe (parse_udp ippS.2).2).2).2).2).2 = Except.ok iippS ∧
    StructIpHeader.parse? iippS.1 = some iiptS ∧
    parse_tcp iippS.2 = Except.ok t3S ∧
    StructTcpHeaderWithoutOptions.parse? t3S.1 = some tcptS ∧
    (∃ st2,
      if (emptyState.sessions (FlowKey.swap (keyOf ietS iiptS tcptS))).isSome then
        parse_frame_and_deencapsulate emptyState frameS =
            Except.ok (st2, [(Iface.unencapIn,
              (parse_nsh (parse_ethernet
                (parse_vxlan_gpe (parse_udp ippS.2).2).2).2).2)], true) ∧
          st2.sessions_reply_info (FlowKey.swap (keyOf ietS iiptS tcptS)) =
            some ⟨(parse_ethernet frameS).1, ippS.1, (parse_udp ippS.2).1,
              (parse_vxlan_gpe (parse_udp ippS.2).2).1,
              (parse_ethernet (parse_vxlan_gpe (parse_udp ippS.2).2).2).1,
              (parse_nsh (parse_ethernet
                (parse_vxlan_gpe (parse_udp ippS.2).2).2).2).1⟩ ∧
          st2.sessions = emptyState.sessions ∧
          (∀ k2, k2 ≠ FlowKey.swap (keyOf ietS iiptS tcptS) →
            st2.sessions_reply_info k2 = emptyState.sessions_reply_info k2)
      else
        parse_frame_and_deencapsulate emptyState frameS =
            Except.ok (st2, [(Iface.unencapOut,
              (parse_nsh (parse_ethernet
                (parse_vxlan_gpe (parse_udp ippS.2).2).2).2).2)], true) ∧
          st2.sessions (keyOf ietS iiptS tcptS) =
            some ⟨(parse_ethernet frameS).1, ippS.1, (parse_udp ippS.2).1,
              (parse_vxlan_gpe (parse_udp ippS.2).2).1,
              (parse_ethernet (parse_vxlan_gpe (parse_udp ippS.2).2).2).1,
              (parse_nsh (parse_ethernet
                (parse_vxlan_gpe (parse_udp ippS.2).2).2).2).1⟩ ∧
          st2.sessions_reply_info = emptyState.sessions_reply_info ∧
          (∀ k2, k2 ≠ keyOf ietS iiptS tcptS →
            st2.sessions k2 = emptyState.sessions k2)) :=
  ⟨rfl, rfl, rfl, rfl, rfl, rfl, rfl, rfl, rfl, rfl, rfl, rfl, rfl, rfl, rfl,
   decap_session_and_emit emptyState frameS etS ippS iptS udptS vxtS entS nshtS
     ietS iippS iiptS t3S tcptS rfl rfl rfl rfl rfl rfl rfl rfl rfl rfl rfl rfl rfl rfl rfl⟩

/-- C5: for every bare frame on unencap-in that parses as Ethernet type
0x0800, IPv4 protocol 6 and TCP but whose 7-tuple key is not present in the
forward session table, nothing is emitted on any interface and both session
tables are unchanged (silent drop). -/
theorem encap_unknown_flow_drop (st : ProxyState) (frame : List Nat)
    (et : StructEthHeader) (ipp : List Nat × List Nat) (ipt : StructIpHeader)
    (t3 : List Nat × List Nat × List Nat) (tcpt : StructTcpHeaderWithoutOptions)
    (hE : StructEthHeader.parse? (parse_ethernet frame).1 = some et)
    (hT : et.eth_type = 0x0800)
    (hI : parse_ip (parse_ethernet frame).2 = Except.ok ipp)
    (hIp : StructIpHeader.parse? ipp.1 = some ipt)
    (hP : ipt.ip_protocol = 6)
    (hTc : parse_tcp ipp.2 = Except.ok t3)
    (hTcp : StructTcpHeaderWithoutOptions.parse? t3.1 = some tcpt)
    (hK : st.sessions (keyOf et ipt tcpt) = none) :
    parse_frame_and_encapsulate st frame = Except.ok (st, [], false) := by
  simp only [parse_frame_and_encapsulate, hE, hT, hI, hIp, hP, hTc, hTcp, hK]
  simp

/-- The bare inner frame of the sample flow, as the service function would
return it on unencap-in. -/
def bareS : List Nat := innerEthS ++ innerIpS ++ innerTcpS

/-- Witness for C5: the unknown-flow theorem applied to the bare sample frame
against the empty state. -/
theorem encap_unknown_flow_drop_witness :
    StructEthHeader.parse? (parse_ethernet bareS).1 = some ietS ∧
    ietS.eth_type = 0x0800 ∧
    parse_ip (parse_ethernet bareS).2 = Except.ok iippS ∧
    StructIpHeader.parse? iippS.1 = some iiptS ∧
    iiptS.ip_protocol = 6 ∧
    parse_tcp iippS.2 = Except.ok t3S ∧
    StructTcpHeaderWithoutOptions.parse? t3S.1 = some tcptS ∧
    emptyState.sessions (keyOf ietS iiptS tcptS) = none ∧
    parse_frame_and_encapsulate emptyState bareS = Except.ok (emptyState, [], false) :=
  ⟨rfl, rfl, rfl, rfl, rfl, rfl, rfl, rfl,
   encap_unknown_flow_drop emptyState bareS ietS iippS iiptS t3S tcptS
     rfl rfl rfl rfl rfl rfl rfl rfl⟩

/-- C2 (amended): for every bare frame Q on unencap-in that parses as Ethernet
type 0x0800, IPv4 protocol 6 and TCP, whose 7-tuple key is present in the
forward table with a stored bundle whose slices parse as their header types
and whose NSH service index is at least 1, the frame emitted on encap is
exactly the concatenation of: the bundle's outer Ethernet with source and
destination exchanged, its outer IPv4 with source and destination exchanged
(checksum not recomputed), its UDP header verbatim, its VXLAN-GPE header
verbatim, its NSH-carrying Ethernet verbatim, its NSH with the service index
decremented by one, and the entire input frame verbatim; the session tables
are not modified.  The original claim without the service-index condition
fails at SI equal to 0, where the decrement underflows (see the
counterexample). -/
theorem encap_rebuild (st : ProxyState) (frame : List Nat)
    (et : StructEthHeader) (ipp : List Nat × List Nat) (ipt : StructIpHeader)
    (t3 : List Nat × List Nat × List Nat) (tcpt : StructTcpHeaderWithoutOptions)
    (B : Bundle) (bet : StructEthHeader) (bipt : StructIpHeader)
    (bnsht : StructNshHeader)
    (hE : StructEthHeader.parse? (parse_ethernet frame).1 = some et)
    (hT : et.eth_type = 0x0800)
    (hI : parse_ip (parse_ethernet frame).2 = Except.ok ipp)
    (hIp : StructIpHeader.parse? ipp.1 = some ipt)
    (hP : ipt.ip_protocol = 6)
    (hTc : parse_tcp ipp.2 = Except.ok t3)
    (hTcp : StructTcpHeaderWithoutOptions.parse? t3.1 = some tcpt)
    (hK : st.sessions (keyOf et ipt tcpt) = some B)
    (hbe : StructEthHeader.parse? B.outer_eth = some bet)
    (hbi : StructIpHeader.parse? B.outer_ip = some bipt)
    (hbn : StructNshHeader.parse? B.nsh = some bnsht)
    (hsi : 1 ≤ bnsht.get_nsh_si) :
    parse_frame_and_encapsulate st frame =
      Except.ok (st, [(Iface.encap,
        StructEthHeader.pack { bet with eth_dst := bet.eth_src, eth_src := bet.eth_dst } ++
        StructIpHeader.pack { bipt with ip_src := bipt.ip_dst, ip_dst := bipt.ip_src } ++
        B.udp ++ B.vxlan ++ B.nsh_eth ++
        StructNshHeader.pack
          { bnsht with nsh_sph := bnsht.get_nsh_spi * 256 + (bnsht.get_nsh_si - 1) } ++
        frame)], false) := by
  have hswapE : make_ethernet_header_swap B.outer_eth =
      some (StructEthHeader.pack
        { bet with eth_dst := bet.eth_src, eth_src := bet.eth_dst }) := by
    simp [make_ethernet_header_swap, hbe]
  have hswapI : make_ip_header_swap B.outer_ip =
      some (StructIpHeader.pack
        { bipt with ip_src := bipt.ip_dst, ip_dst := bipt.ip_src }) := by
    simp [make_ip_header_swap, hbi]
  have hdecr : make_nsh_decr_si B.nsh =
      some (StructNshHeader.pack
        { bnsht with nsh_sph := bnsht.get_nsh_spi * 256 + (bnsht.get_nsh_si - 1) }) := by
    simp only [make_nsh_decr_si, hbn]
    split
    · have ht : ((bnsht.get_nsh_spi : Int) * 256 + ((bnsht.get_nsh_si : Int) - 1)).toNat =
          bnsht.get_nsh_spi * 256 + (bnsht.get_nsh_si - 1) := by omega
      rw [ht]
    · next hneg => omega
  simp only [parse_frame_and_encapsulate, hE, hT, hI, hIp, hP, hTc, hTcp, hK,
    hswapE, hswapI, hdecr]
  simp

/-- A 24-byte NSH header whose service path header is zero (SPI 0, SI 0). -/
def nshZeroS : List Nat :=
  [0, 0, 0, 0, 0, 0, 0, 0, 0, 0, 0, 0, 0, 0, 0, 0, 0, 0, 0, 0, 0, 0, 0, 0]

/-- The record nshZeroS parses to. -/
def nshZeroNt : StructNshHeader :=
  { nsh_flags_length := 0, nsh_md_type := 0, nsh_np := 0, nsh_sph := 0,
    nsh_ctx1 := 0, nsh_ctx2 := 0, nsh_ctx3 := 0, nsh_ctx4 := 0 }

/-- A stored bundle whose NSH has service index zero. -/
def bundleZeroS : Bundle :=
  { outer_eth := outerEthS, outer_ip := outerIpS, udp := udpS, vxlan := vxlanS,
    nsh_eth := ethNshS, nsh := nshZeroS }

/-- The sample bundle with service index 5, as the decap pipeline stores it. -/
def bundleS : Bundle :=
  { outer_eth := outerEthS, outer_ip := outerIpS, udp := udpS, vxlan := vxlanS,
    nsh_eth := ethNshS, nsh := nshS }

/-- State whose forward table maps the sample key to the SI = 0 bundle. -/
def stSiZero : ProxyState :=
  ⟨fun k => if k = keyOf ietS iiptS tcptS then some bundleZeroS else none, fun _ => none⟩

/-- State whose forward table maps the sample key to the SI = 5 bundle. -/
def stFwd : ProxyState :=
  ⟨fun k => if k = keyOf ietS iiptS tcptS then some bundleS else none, fun _ => none⟩

/-- Counterexample for C2 as frozen: with the sample key present in the
forward table but the stored bundle's NSH service index equal to 0 (SPI 0),
the decrement underflows, struct packing raises, and nothing is emitted on
encap, contradicting the claim that a rebuilt frame is always emitted. -/
theorem encap_si_zero_counterexample :
    StructNshHeader.parse? nshZeroS = some nshZeroNt ∧
      nshZeroNt.get_nsh_si = 0 ∧
      stSiZero.sessions (keyOf ietS iiptS tcptS) = some bundleZeroS ∧
      parse_frame_and_encapsulate stSiZero bareS = Except.error () :=
  ⟨rfl, rfl, rfl, rfl⟩

/-- Witness for C2 (amended): the rebuild theorem applied to the bare sample
frame against the state holding the SI = 5 sample bundle. -/
theorem encap_rebuild_witness :
    StructEthHeader.parse? (parse_ethernet bareS).1 = some ietS ∧
    ietS.eth_type = 0x0800 ∧
    parse_ip (parse_ethernet bareS).2 = Except.ok iippS ∧
    StructIpHeader.parse? iippS.1 = some iiptS ∧
    iiptS.ip_protocol = 6 ∧
    parse_tcp iippS.2 = Except.ok t3S ∧
    StructTcpHeaderWithoutOptions.parse? t3S.1 = some tcptS ∧
    stFwd.sessions (keyOf ietS iiptS tcptS) = some bundleS ∧
    StructEthHeader.parse? bundleS.outer_eth = some etS ∧
    StructIpHeader.parse? bundleS.outer_ip = some iptS ∧
    StructNshHeader.parse? bundleS.nsh = some nshtS ∧
    1 ≤ nshtS.get_nsh_si ∧
    parse_frame_and_encapsulate stFwd bareS =
      Except.ok (stFwd, [(Iface.encap,
        StructEthHeader.pack { etS with eth_dst := etS.eth_src, eth_src := etS.eth_dst } ++
        StructIpHeader.pack { iptS with ip_src := iptS.ip_dst, ip_dst := iptS.ip_src } ++
        bundleS.udp ++ bundleS.vxlan ++ bundleS.nsh_eth ++
        StructNshHeader.pack
          { nshtS with nsh_sph := nshtS.get_nsh_spi * 256 + (nshtS.get_nsh_si - 1) } ++
        bareS)], false) :=
  ⟨rfl, rfl, rfl, rfl, rfl, rfl, rfl, rfl, rfl, rfl, rfl, by decide,
   encap_rebuild stFwd bareS ietS iippS iiptS t3S tcptS bundleS etS iptS nshtS
     rfl rfl rfl rfl rfl rfl rfl rfl rfl rfl rfl (by decide)⟩

/-- C4: for every frame on unencap-out that parses as Ethernet type 0x0800,
IPv4 protocol 6 and TCP, whose swapped 7-tuple key is present in the forward
table but absent from the reply table, the reverse-encap pipeline raises an
uncaught KeyError when fetching the reply bundle, terminating the worker,
rather than dropping the frame or emitting anything. -/
theorem reverse_encap_keyerror (st : ProxyState) (frame : List Nat)
    (et : StructEthHeader) (ipp : List Nat × List Nat) (ipt : StructIpHeader)
    (t3 : List Nat × List Nat × List Nat) (tcpt : StructTcpHeaderWithoutOptions)
    (hE : StructEthHeader.parse? (parse_ethernet frame).1 = some et)
    (hT : et.eth_type = 0x0800)
    (hI : parse_ip (parse_ethernet frame).2 = Except.ok ipp)
    (hIp : StructIpHeader.parse? ipp.1 = some ipt)
    (hP : ipt.ip_protocol = 6)
    (hTc : parse_tcp ipp.2 = Except.ok t3)
    (hTcp : StructTcpHeaderWithoutOptions.parse? t3.1 = some tcpt)
    (hS : (st.sessions (FlowKey.swap (keyOf et ipt tcpt))).isSome = true)
    (hR : st.sessions_reply_info (FlowKey.swap (keyOf et ipt tcpt)) = none) :
    parse_frame_and_encapsulate_test st frame = Except.error () := by
  obtain ⟨b, hb⟩ := Option.isSome_iff_exists.mp hS
  simp only [parse_frame_and_encapsulate_test, hE, hT, hI, hIp, hP, hTc, hTcp, hb, hR]
  simp

/-- State whose forward table holds the sample bundle under the swapped sample
key, with the reply table empty. -/
def stRev : ProxyState :=
  ⟨fun k => if k = FlowKey.swap (keyOf ietS iiptS tcptS) then some bundleS else none,
   fun _ => none⟩

/-- Witness for C4: the KeyError theorem applied to the bare sample frame
against a state primed in the forward table only. -/
theorem reverse_encap_keyerror_witness :
    StructEthHeader.parse? (parse_ethernet bareS).1 = some ietS ∧
    ietS.eth_type = 0x0800 ∧
    parse_ip (parse_ethernet bareS).2 = Except.ok iippS ∧
    StructIpHeader.parse? iippS.1 = some iiptS ∧
    iiptS.ip_protocol = 6 ∧
    parse_tcp iippS.2 = Except.ok t3S ∧
    StructTcpHeaderWithoutOptions.parse? t3S.1 = some tcptS ∧
    (stRev.sessions (FlowKey.swap (keyOf ietS iiptS tcptS))).isSome = true ∧
    stRev.sessions_reply_info (FlowKey.swap (keyOf ietS iiptS tcptS)) = none ∧
    parse_frame_and_encapsulate_test stRev bareS = Except.error () :=
  ⟨rfl, rfl, rfl, rfl, rfl, rfl, rfl, rfl, rfl,
   reverse_encap_keyerror stRev bareS ietS iippS iiptS t3S tcptS
     rfl rfl rfl rfl rfl rfl rfl rfl rfl⟩

/-- C3 (amended): on the encap interface, a frame whose outer ethertype is
not 0x0800, or whose IP protocol is not 17, or whose UDP destination port is
not 4790 — with the headers up to that check unpacking successfully — is
dropped silently: nothing is emitted and both session tables are unchanged.
The original claim also covered frames with an unexpected header length, but
those raise an uncaught struct or index error instead of being dropped (see
the counterexample). -/
theorem decap_mismatch_drop :
    (∀ (st : ProxyState) (frame : List Nat) (et : StructEthHeader),
      StructEthHeader.parse? (parse_ethernet frame).1 = some et →
      et.eth_type ≠ 0x0800 →
      parse_frame_and_deencapsulate st frame = Except.ok (st, [], false)) ∧
    (∀ (st : ProxyState) (frame : List Nat) (et : StructEthHeader)
      (ipp : List Nat × List Nat) (ipt : StructIpHeader),
      StructEthHeader.parse? (parse_ethernet frame).1 = some et →
      et.eth_type = 0x0800 →
      parse_ip (parse_ethernet frame).2 = Except.ok ipp →
      StructIpHeader.parse? ipp.1 = some ipt →
      ipt.ip_protocol ≠ 17 →
      parse_frame_and_deencapsulate st frame = Except.ok (st, [], false)) ∧
    (∀ (st : ProxyState) (frame : List Nat) (et : StructEthHeader)
      (ipp : List Nat × List Nat) (ipt : StructIpHeader) (udpt : StructUdpHeader),
      StructEthHeader.parse? (parse_ethernet frame).1 = some et →
      et.eth_type = 0x0800 →
      parse_ip (parse_ethernet frame).2 = Except.ok ipp →
      StructIpHeader.parse? ipp.1 = some ipt →
      ipt.ip_protocol = 17 →
      StructUdpHeader.parse? (parse_udp ipp.2).1 = some udpt →
      udpt.udp_dst_port ≠ 4790 →
      parse_frame_and_deencapsulate st frame = Except.ok (st, [], true)) := by
  refine ⟨?_, ?_, ?_⟩
  · intro st frame et hE hT
    simp only [parse_frame_and_deencapsulate, hE]
    simp [hT]
  · intro st frame et ipp ipt hE hT hI hIp hP
    simp only [parse_frame_and_deencapsulate, hE, hT, hI, hIp]
    simp [hP]
  · intro st frame et ipp ipt udpt hE hT hI hIp hP hU hPort
    simp only [parse_frame_and_deencapsulate, hE, hT, hI, hIp, hP, hU]
    simp [hPort]

/-- A 14-byte frame with IPv4 ethertype and an empty payload: indexing byte 0
of the payload raises, so the decap pipeline dies instead of dropping. -/
def frameTruncatedS : List Nat := [0, 0, 0, 0, 0, 0, 0, 0, 0, 0, 0, 0, 8, 0]

/-- Counterexample for C3 as frozen: a frame failing only the header-length
expectations (here: an empty IP layer) makes the decap pipeline raise an
uncaught exception instead of dropping the frame silently. -/
theorem decap_truncated_raises :
    parse_frame_and_deencapsulate emptyState frameTruncatedS = Except.error () := rfl

/-- An IPv6 frame: 14 bytes with ethertype 0x86DD. -/
def frameV6S : List Nat := [0, 0, 0, 0, 0, 0, 0, 0, 0, 0, 0, 0, 134, 221]

/-- The record frameV6S's header parses to. -/
def etV6S : StructEthHeader :=
  { eth_dst := [0, 0, 0, 0, 0, 0], eth_src := [0, 0, 0, 0, 0, 0], eth_type := 34525 }

/-- A frame with correct ethertype but IP protocol 6 instead of 17. -/
def frameTcpProtoS : List Nat := outerEthS ++ innerIpS

/-- A frame with correct ethertype and protocol but UDP destination 4789. -/
def frameWrongPortS : List Nat := outerEthS ++ outerIpS ++ [150, 64, 18, 181, 0, 108, 0, 0]

/-- The record the wrong-port frame's UDP header parses to. -/
def udptWrongS : StructUdpHeader :=
  { udp_src_port := 38464, udp_dst_port := 4789, udp_data_length := 108,
    udp_checksum := 0 }

/-- Witness for C3 (amended): the three mismatch cases applied at concrete
frames (IPv6 ethertype, TCP protocol, standard-VXLAN port). -/
theorem decap_mismatch_drop_witness :
    (StructEthHeader.parse? (parse_ethernet frameV6S).1 = some etV6S ∧
      etV6S.eth_type ≠ 0x0800 ∧
      parse_frame_and_deencapsulate emptyState frameV6S =
        Except.ok (emptyState, [], false)) ∧
    (iiptS.ip_protocol ≠ 17 ∧
      parse_frame_and_deencapsulate emptyState frameTcpProtoS =
        Except.ok (emptyState, [], false)) ∧
    (udptWrongS.udp_dst_port ≠ 4790 ∧
      parse_frame_and_deencapsulate emptyState frameWrongPortS =
        Except.ok (emptyState, [], true)) :=
  ⟨⟨rfl, by decide, decap_mismatch_drop.1 emptyState frameV6S etV6S rfl (by decide)⟩,
   ⟨by decide, decap_mismatch_drop.2.1 emptyState frameTcpProtoS etS
      (innerIpS, []) iiptS rfl rfl rfl rfl (by decide)⟩,
   ⟨by decide, decap_mismatch_drop.2.2 emptyState frameWrongPortS etS
      (outerIpS, [150, 64, 18, 181, 0, 108, 0, 0]) iptS udptWrongS
      rfl rfl rfl rfl rfl rfl (by decide)⟩⟩

end SfcProxy
